import Mathlib

/-!
# Ride-request page script (static/js/scripts.js)

A shallow embedding of the browser script that drives the ride-request page:

* `initRequestMap`: the click handler of the map, `setPickup`, `setDrop` and the
  `dragend` listeners of the two markers;
* `attachRideFormSubmit`: the `submit` listener of the ride form;
* `pollRequest`: one poll tick (fetch, parse, render).

The script runs on top of the JavaScript runtime, the DOM and Leaflet.  The parts of
those that the script relies on are modelled explicitly in the first sections:
`JSNumber` and `JSPrim` with the ECMAScript `ToString` conversion, the form fields as
the strings stored in their `value`, the markers of the map as a list of layers, the
three DOM anchors of the status panel, and the text that the HTML parser makes of
markup assigned to `innerHTML`.
-/

namespace UberClone

/-! ## JavaScript values -/

/-- A JavaScript Number.  A finite non-zero number is represented by the triple that
ECMAScript `Number::toString` is specified with: its sign, the integer `s` holding its
shortest round-trip decimal digits, and the decimal exponent `n`, the value being
`s × 10 ^ (n - k)` where `k` is the number of digits of `s`.  So `2.3` is
`finite false 23 1`, `42` is `finite false 42 2` and `0.05` is `finite false 5 (-1)`. -/
inductive JSNumber where
  | nan
  | infinity (negative : Bool)
  | zero
  | finite (negative : Bool) (s : Nat) (n : Int)
  deriving DecidableEq, Repr

/-- The characters ECMAScript `Number::toString` (radix 10) produces for a positive
finite number with digits `s` and exponent `n`: plain decimal notation when
`-6 < n ≤ 21`, exponent notation otherwise. -/
def finiteChars (s : Nat) (n : Int) : List Char :=
  let digits := Nat.toDigits 10 s
  let k : Int := digits.length
  if k ≤ n ∧ n ≤ 21 then
    digits ++ List.replicate (n - k).toNat '0'
  else if 0 < n ∧ n ≤ 21 then
    digits.take n.toNat ++ '.' :: digits.drop n.toNat
  else if -6 < n ∧ n ≤ 0 then
    '0' :: '.' :: (List.replicate (-n).toNat '0' ++ digits)
  else
    let e := n - 1
    let sign := if e < 0 then '-' else '+'
    let mantissa := if digits.length = 1 then digits else digits.take 1 ++ '.' :: digits.drop 1
    mantissa ++ 'e' :: sign :: Nat.toDigits 10 e.natAbs

/-- ECMAScript `Number::toString` as a list of characters. -/
def numberChars : JSNumber → List Char
  | .nan => "NaN".data
  | .infinity false => "Infinity".data
  | .infinity true => "-Infinity".data
  | .zero => ['0']
  | .finite false s n => finiteChars s n
  | .finite true s n => '-' :: finiteChars s n

/-- ECMAScript `ToString` applied to a Number. -/
def numberToString (x : JSNumber) : String :=
  String.mk (numberChars x)

/-- The primitive JavaScript values that the members of a JSON poll body hold;
`undefined` is what reading a missing member gives. -/
inductive JSPrim where
  | undefined
  | null
  | bool (b : Bool)
  | num (x : JSNumber)
  | str (s : String)
  deriving DecidableEq, Repr

/-- ECMAScript `ToString`, the conversion a template literal applies to each
interpolated value. -/
def JSPrim.toStr : JSPrim → String
  | .undefined => "undefined"
  | .null => "null"
  | .bool true => "true"
  | .bool false => "false"
  | .num x => numberToString x
  | .str s => s

/-- ECMAScript `ToBoolean` on a string: only the empty string is falsy. -/
def truthy (s : String) : Bool :=
  decide (s ≠ "")

/-- Errors that the script can see thrown. -/
inductive JSError where
  | typeError
  | syntaxError
  deriving DecidableEq, Repr

/-! ## The ride form and its submit listener -/

/-- The `value` of the four coordinate inputs of the ride form. -/
structure RideForm where
  pickup_lat : String
  pickup_lng : String
  dropoff_lat : String
  dropoff_lng : String
  deriving DecidableEq, Repr

/-- What one dispatch of the `submit` event leaves behind: whether the listener
called `ev.preventDefault()`, and the messages it passed to `alert`. -/
structure SubmitOutcome where
  defaultPrevented : Bool
  alerts : List String
  deriving DecidableEq, Repr

/-- The message of the alert raised by the submit listener. -/
def selectPointsAlert : String :=
  "Please select pickup and dropoff points on the map (click twice)."

/-- The listener that `attachRideFormSubmit` adds for the `submit` event of the ride
form, run on the current values of the inputs. -/
def submitListener (form : RideForm) : SubmitOutcome :=
  let pLat := form.pickup_lat
  let dLat := form.dropoff_lat
  if !truthy pLat || !truthy dLat then
    { defaultPrevented := true, alerts := [selectPointsAlert] }
  else
    { defaultPrevented := false, alerts := [] }

/-- The function `attachRideFormSubmit()`: the listener it installs, none when the
page has no `#rideForm` element. -/
def attachRideFormSubmit (formEl : Bool) : Option (RideForm → SubmitOutcome) :=
  if !formEl then none else some submitListener

/-- The listener lets the browser submit the form: no `preventDefault`, no alert. -/
def permitsSubmission (form : RideForm) : Prop :=
  (submitListener form).defaultPrevented = false ∧ (submitListener form).alerts = []

instance (form : RideForm) : Decidable (permitsSubmission form) := by
  unfold permitsSubmission; infer_instance

/-! ## The request map -/

/-- A Leaflet `LatLng`: the point of a map click or the position of a marker. -/
structure LatLng where
  lat : JSNumber
  lng : JSNumber
  deriving DecidableEq, Repr

/-- The two roles a point of the map can be selected for. -/
inductive Slot where
  | pickup
  | dropoff
  deriving DecidableEq, Repr

/-- A marker created by `L.marker`.  `id` is the stamp Leaflet gives each layer and
stands for the identity of the object.  `slot` records which of the two functions
created it: a marker made by `setPickup` has the default icon, the popup "Pickup" and
the `dragend` listener that writes the pickup inputs; one made by `setDrop` has the
explicit icon, the popup "Dropoff" and the listener that writes the drop-off inputs. -/
structure Marker where
  id : Nat
  latlng : LatLng
  draggable : Bool
  slot : Slot
  deriving DecidableEq, Repr

/-- The text bound to a marker by `bindPopup`. -/
def Marker.popup (m : Marker) : String :=
  match m.slot with
  | .pickup => "Pickup"
  | .dropoff => "Dropoff"

/-- The `iconUrl` option of a marker, `none` for the default icon. -/
def Marker.iconUrl (m : Marker) : Option String :=
  match m.slot with
  | .pickup => none
  | .dropoff => some "https://unpkg.com/leaflet@1.9.3/dist/images/marker-icon.png"

/-- The state that `initRequestMap` closes over once the map is set up: the three
`let` variables (`pickupMarker` and `dropMarker` hold a reference to a marker, that
is its stamp, or `null`), the marker layers currently on the map, the next free
stamp, and the ride form.  `clickCount` is a JavaScript number that only ever holds
the number of clicks received, which it does exactly below `2 ^ 53`. -/
structure MapPage where
  clickCount : Nat
  pickupMarker : Option Nat
  dropMarker : Option Nat
  layers : List Marker
  nextStamp : Nat
  form : RideForm
  deriving DecidableEq, Repr

/-- Leaflet `map.removeLayer(marker)`: take the referenced marker off the map. -/
def removeLayer (ref : Nat) (layers : List Marker) : List Marker :=
  layers.filter (fun m => decide (m.id ≠ ref))

/-- The function `setPickup(latlng)` of `initRequestMap`. -/
def setPickup (latlng : LatLng) (s : MapPage) : MapPage :=
  let layers :=
    match s.pickupMarker with
    | some old => removeLayer old s.layers
    | none => s.layers
  let marker : Marker :=
    { id := s.nextStamp, latlng := latlng, draggable := true, slot := .pickup }
  { s with
    pickupMarker := some marker.id
    layers := layers ++ [marker]
    nextStamp := s.nextStamp + 1
    form := { s.form with
      pickup_lat := numberToString latlng.lat
      pickup_lng := numberToString latlng.lng } }

/-- The function `setDrop(latlng)` of `initRequestMap`. -/
def setDrop (latlng : LatLng) (s : MapPage) : MapPage :=
  let layers :=
    match s.dropMarker with
    | some old => removeLayer old s.layers
    | none => s.layers
  let marker : Marker :=
    { id := s.nextStamp, latlng := latlng, draggable := true, slot := .dropoff }
  { s with
    dropMarker := some marker.id
    layers := layers ++ [marker]
    nextStamp := s.nextStamp + 1
    form := { s.form with
      dropoff_lat := numberToString latlng.lat
      dropoff_lng := numberToString latlng.lng } }

/-- The statement `clickCount++` of the click listener. -/
def bumpClickCount (s : MapPage) : MapPage :=
  { s with clickCount := s.clickCount + 1 }

/-- The `click` listener of the map. -/
def onMapClick (latlng : LatLng) (s : MapPage) : MapPage :=
  let s := bumpClickCount s
  if s.clickCount % 2 = 1 then
    setPickup latlng s
  else
    setDrop latlng s

/-- Leaflet moving a dragged marker: the marker with stamp `ref` now sits at `p`. -/
def moveMarker (ref : Nat) (p : LatLng) (layers : List Marker) : List Marker :=
  layers.map (fun m => if m.id = ref then { m with latlng := p } else m)

/-- The end of a drag of the marker with stamp `ref`, released at `p`: Leaflet has
moved the marker to `p` and fires `dragend` on it, and the listener attached by
`setPickup` or `setDrop` copies `e.target.getLatLng()` into the inputs of its slot.
Only a marker that is on the map can be dragged. -/
def onDragend (ref : Nat) (p : LatLng) (s : MapPage) : MapPage :=
  match s.layers.find? (fun m => decide (m.id = ref)) with
  | none => s
  | some m =>
    let s := { s with layers := moveMarker ref p s.layers }
    match m.slot with
    | .pickup =>
      { s with form := { s.form with
          pickup_lat := numberToString p.lat
          pickup_lng := numberToString p.lng } }
    | .dropoff =>
      { s with form := { s.form with
          dropoff_lat := numberToString p.lat
          dropoff_lng := numberToString p.lng } }

/-- The page as `initRequestMap` leaves it: nothing when the `#map` anchor is absent,
otherwise a map without markers, the click counter at 0 and an untouched form. -/
def initRequestMap (mapEl : Bool) (form : RideForm) : Option MapPage :=
  if !mapEl then none
  else some
    { clickCount := 0, pickupMarker := none, dropMarker := none, layers := [],
      nextStamp := 0, form := form }

/-- The ride form before any point is selected: the four inputs are empty. -/
def emptyForm : RideForm :=
  { pickup_lat := "", pickup_lng := "", dropoff_lat := "", dropoff_lng := "" }

/-- The initial page state: click counter 0, no markers, the four inputs empty. -/
def initialPage : MapPage :=
  { clickCount := 0, pickupMarker := none, dropMarker := none, layers := [],
    nextStamp := 0, form := emptyForm }

/-- The user gestures the map reacts to. -/
inductive Event where
  | click (latlng : LatLng)
  | dragend (ref : Nat) (p : LatLng)
  deriving DecidableEq, Repr

/-- Dispatch of one event to its listener. -/
def handle (s : MapPage) : Event → MapPage
  | .click latlng => onMapClick latlng s
  | .dragend ref p => onDragend ref p s

/-- The page after a sequence of events, oldest first. -/
def runEvents (s : MapPage) (es : List Event) : MapPage :=
  es.foldl handle s

/-- Number of map clicks in a sequence of events. -/
def clicksIn (es : List Event) : Nat :=
  (es.filter (fun e => match e with | .click _ => true | .dragend _ _ => false)).length

/-- The markers of a slot that are on the map. -/
def markersOf (slot : Slot) (s : MapPage) : List Marker :=
  s.layers.filter (fun m => decide (m.slot = slot))

/-- A call of one of the two placement functions. -/
inductive Step where
  | event (e : Event)
  | callSetPickup (latlng : LatLng)
  | callSetDrop (latlng : LatLng)
  deriving DecidableEq, Repr

/-- One event or one direct call of a placement function. -/
def step (s : MapPage) : Step → MapPage
  | .event e => handle s e
  | .callSetPickup latlng => setPickup latlng s
  | .callSetDrop latlng => setDrop latlng s

/-- The page after a sequence of steps, oldest first. -/
def runSteps (s : MapPage) (steps : List Step) : MapPage :=
  steps.foldl step s

/-! ## The status panel and the poll tick -/

/-- One element of the `matches` array of a poll body.  Each member holds the value
read from it, `undefined` when the member is missing. -/
structure MatchJson where
  driver__user__username : JSPrim
  status : JSPrim
  distance_to_pickup_km : JSPrim
  eta_to_pickup_min : JSPrim
  deriving DecidableEq, Repr

/-- The `ride` object of a poll body. -/
structure RideJson where
  id : JSPrim
  driver : JSPrim
  status : JSPrim
  deriving DecidableEq, Repr

/-- The value `res.json()` resolves to for a body of the poll interface: an object
whose `status` is a primitive (`undefined` when missing), whose `matches` is an array
of match objects (`none` when the member is missing or `null`) and whose `ride` is an
object (`none` when the member is missing or `null`). -/
structure PollJson where
  status : JSPrim
  «matches» : Option (List MatchJson)
  ride : Option RideJson
  deriving DecidableEq, Repr

/-- An element built by `document.createElement("div")` for one match: its class
and the markup string the script assigned to its `innerHTML`.  The nodes the element
then holds are what the HTML parser builds from that string; their text is
`parsedText` of it. -/
structure RowElement where
  className : String
  innerHTML : String
  deriving DecidableEq, Repr

/-- The three DOM anchors the poll tick writes to, each `none` when the page has no
element of that id: the `textContent` of `#rr-status`, the children of
`#matches-list`, and the markup string last assigned to the `innerHTML` of
`#ride-info`, whose parsed text is `parsedText` of it. -/
structure StatusPanel where
  rrStatus : Option String
  matchesList : Option (List RowElement)
  rideInfo : Option String
  deriving DecidableEq, Repr

/-- How a piece of code ends: normally, or by throwing.  Either way the state it has
reached stays, since a throw undoes nothing. -/
inductive Completion (σ : Type) where
  | normal (s : σ)
  | throw (e : JSError) (s : σ)
  deriving DecidableEq, Repr

/-- The state a completion leaves. -/
def Completion.state {σ : Type} : Completion σ → σ
  | .normal s => s
  | .throw _ s => s

/-- Sequencing of statements: what follows runs only after a normal completion. -/
def Completion.andThen {σ : Type} (c : Completion σ) (f : σ → Completion σ) : Completion σ :=
  match c with
  | .normal s => f s
  | .throw e s => .throw e s

/-- The setter of `textContent`: `null` and `undefined` give the empty string, any
other value is converted with `ToString`. -/
def textContentOf : JSPrim → String
  | .undefined => ""
  | .null => ""
  | v => v.toStr

/-- The statement `document.getElementById("rr-status").textContent = j.status`. -/
def setStatusText (v : JSPrim) (d : StatusPanel) : Completion StatusPanel :=
  match d.rrStatus with
  | none => .throw .typeError d
  | some _ => .normal { d with rrStatus := some (textContentOf v) }

/-- The statements `const list = document.getElementById("matches-list")` and
`list.innerHTML = ""`. -/
def clearMatches (d : StatusPanel) : Completion StatusPanel :=
  match d.matchesList with
  | none => .throw .typeError d
  | some _ => .normal { d with matchesList := some [] }

/-- The element the `forEach` callback builds for the match `m`. -/
def matchRow (m : MatchJson) : RowElement :=
  { className := "list-group-item"
    innerHTML :=
      "<div><strong>" ++ m.driver__user__username.toStr ++ "</strong> — " ++ m.status.toStr
        ++ " <div class=\"small text-muted\">Dist: " ++ m.distance_to_pickup_km.toStr
        ++ "km • ETA " ++ m.eta_to_pickup_min.toStr ++ "min</div></div>" }

/-- The call `list.appendChild(el)`. -/
def appendChild (el : RowElement) (d : StatusPanel) : StatusPanel :=
  { d with matchesList := d.matchesList.map (fun children => children ++ [el]) }

/-- The loop `(j.matches || []).forEach(m => ...)`. -/
def appendMatches (ms : List MatchJson) (d : StatusPanel) : StatusPanel :=
  ms.foldl (fun d m => appendChild (matchRow m) d) d

/-- The markup of the ride banner for the ride `r`. -/
def rideBanner (r : RideJson) : String :=
  "<div class=\"alert alert-info\">Matched to <strong>" ++ r.driver.toStr
    ++ "</strong> — Ride #" ++ r.id.toStr ++ " • Status: " ++ r.status.toStr ++ "</div>"

/-- The statement `if (j.ride) { ... ri.innerHTML = ... }`. -/
def setRideInfo (ride : Option RideJson) (d : StatusPanel) : Completion StatusPanel :=
  match ride with
  | none => .normal d
  | some r =>
    match d.rideInfo with
    | none => .throw .typeError d
    | some _ => .normal { d with rideInfo := some (rideBanner r) }

/-- The render step of `pollRequest`: the statements that follow the parsing of the
body `j`. -/
def render (j : PollJson) (d : StatusPanel) : Completion StatusPanel :=
  (setStatusText j.status d).andThen fun d =>
  (clearMatches d).andThen fun d =>
  setRideInfo j.ride (appendMatches (j.«matches».getD []) d)

/-- What `fetch(url)` followed by `res.json()` gives in one tick: the fetch promise
rejects (a network error), or it resolves with a response of some HTTP status whose
body parses to a value or, with `none`, is not valid JSON. -/
inductive FetchOutcome where
  | rejected (reason : JSError)
  | response (httpStatus : Nat) (body : Option PollJson)
  deriving DecidableEq, Repr

/-- The property `res.ok` of a response: a status from 200 to 299. -/
def FetchOutcome.ok : FetchOutcome → Bool
  | .rejected _ => false
  | .response httpStatus _ => decide (200 ≤ httpStatus ∧ httpStatus ≤ 299)

/-- The status panel together with the errors written to the console. -/
structure PollWorld where
  panel : StatusPanel
  console : List JSError
  deriving DecidableEq, Repr

/-- The address polled for the request `requestId`. -/
def pollUrl (requestId : JSPrim) : String :=
  "/customer/poll/" ++ requestId.toStr ++ "/"

/-- The body of the `try` block of `pollRequest`. -/
def pollTry (outcome : FetchOutcome) (d : StatusPanel) : Completion StatusPanel :=
  match outcome with
  | .rejected reason => .throw reason d
  | .response _ none => .throw .syntaxError d
  | .response _ (some j) => render j d

/-- The function `pollRequest()`, one poll tick.  `REQUEST_ID` is the global of that
name, `none` when it is not declared; `fetch` is the network as seen in this tick. -/
def pollRequest (REQUEST_ID : Option JSPrim) (fetch : String → FetchOutcome)
    (w : PollWorld) : Completion PollWorld :=
  match REQUEST_ID with
  | none => .normal w
  | some .undefined => .normal w
  | some requestId =>
    let url := pollUrl requestId
    match pollTry (fetch url) w.panel with
    | .normal d => .normal { w with panel := d }
    | .throw e d => .normal { panel := d, console := w.console ++ [e] }

/-! ## What assigned markup displays

The script hands markup to the page through `innerHTML`; the page then holds what the
HTML parser builds from it, not the string.  `RowElement.innerHTML` and
`StatusPanel.rideInfo` record the string assigned, and `parsedText` gives the text
content of the nodes parsed from it, for the part of the HTML parsing algorithm that is
modelled here: text, the character references `&amp;`, `&lt;`, `&gt;` and `&quot;`, a
`&` or `<` that starts neither a reference nor a tag, and properly nested `div` and
`strong` elements whose attributes are written `name="value"`.  Everything else
(other elements, comments, other references, NUL, carriage returns, tags closed out
of order) is left unmodelled, and `parsedText` gives `none` for it.  The element that
receives the markup is taken to be a `div`, as the rows are. -/

/-- ASCII lower-case letter. -/
def isLowerAlpha (c : Char) : Bool :=
  decide (97 ≤ c.toNat ∧ c.toNat ≤ 122)

/-- ASCII letter or digit. -/
def isAlphanumeric (c : Char) : Bool :=
  decide ((97 ≤ c.toNat ∧ c.toNat ≤ 122) ∨ (65 ≤ c.toNat ∧ c.toNat ≤ 90) ∨
    (48 ≤ c.toNat ∧ c.toNat ≤ 57))

/-- The states of the HTML tokenizer that the model follows.  `charRef` holds the
letters read after a `&`; the attribute states remember the name of the tag they are
in; `unmodelled` is entered on input outside the modelled part and never left. -/
inductive TokState where
  | data
  | charRef (name : List Char)
  | tagOpen
  | startTagName (name : List Char)
  | endTagOpen
  | endTagName (name : List Char)
  | beforeAttrName (tag : List Char)
  | attrName (tag : List Char)
  | beforeAttrValue (tag : List Char)
  | attrValue (tag : List Char)
  | afterAttrValue (tag : List Char)
  | unmodelled
  deriving DecidableEq, Repr

/-- The HTML parser while it reads markup: the tokenizer state, the names of the
open elements, innermost first, and the characters inserted as text so far, last
first. -/
structure HtmlParser where
  tok : TokState
  openTags : List (List Char)
  textRev : List Char
  deriving DecidableEq, Repr

/-- Input outside the modelled part of the parser. -/
def HtmlParser.stop (p : HtmlParser) : HtmlParser :=
  { p with tok := .unmodelled }

/-- A character token: the character is inserted as text in the current node. -/
def HtmlParser.emitChar (c : Char) (p : HtmlParser) : HtmlParser :=
  { p with tok := .data, textRev := c :: p.textRev }

/-- The elements the model follows. -/
def flowTag (name : List Char) : Bool :=
  decide (name = "div".data ∨ name = "strong".data)

/-- A start tag token: the element is inserted and becomes the current node. -/
def HtmlParser.emitStartTag (name : List Char) (p : HtmlParser) : HtmlParser :=
  if flowTag name then { p with tok := .data, openTags := name :: p.openTags }
  else p.stop

/-- An end tag token that names the current node closes it. -/
def HtmlParser.emitEndTag (name : List Char) (p : HtmlParser) : HtmlParser :=
  match p.openTags with
  | top :: rest =>
    if flowTag name && decide (top = name) then { p with tok := .data, openTags := rest }
    else p.stop
  | [] => p.stop

/-- The named character references the model decodes. -/
def namedReference (name : List Char) : Option Char :=
  if name = "amp".data then some '&'
  else if name = "lt".data then some '<'
  else if name = "gt".data then some '>'
  else if name = "quot".data then some '"'
  else none

/-- The data state of the tokenizer. -/
def dataState (c : Char) (p : HtmlParser) : HtmlParser :=
  if c = '<' then { p with tok := .tagOpen }
  else if c = '&' then { p with tok := .charRef [] }
  else if c = Char.ofNat 0 ∨ c = Char.ofNat 13 then p.stop
  else p.emitChar c

/-- One character of markup through the tokenizer and the tree builder. -/
def htmlStep (p : HtmlParser) (c : Char) : HtmlParser :=
  match p.tok with
  | .data => dataState c p
  | .charRef [] =>
    if isAlphanumeric c then { p with tok := .charRef [c] }
    else if c = '#' then p.stop
    else dataState c (p.emitChar '&')
  | .charRef (a :: name) =>
    if isAlphanumeric c then { p with tok := .charRef (a :: name ++ [c]) }
    else if c = ';' then
      match namedReference (a :: name) with
      | some d => p.emitChar d
      | none => p.stop
    else p.stop
  | .tagOpen =>
    if isLowerAlpha c then { p with tok := .startTagName [c] }
    else if c = '/' then { p with tok := .endTagOpen }
    else if isAlphanumeric c ∨ c = '!' ∨ c = '?' then p.stop
    else dataState c (p.emitChar '<')
  | .startTagName name =>
    if isLowerAlpha c then { p with tok := .startTagName (name ++ [c]) }
    else if c = '>' then p.emitStartTag name
    else if c = ' ' then { p with tok := .beforeAttrName name }
    else p.stop
  | .endTagOpen =>
    if isLowerAlpha c then { p with tok := .endTagName [c] } else p.stop
  | .endTagName name =>
    if isLowerAlpha c then { p with tok := .endTagName (name ++ [c]) }
    else if c = '>' then p.emitEndTag name
    else p.stop
  | .beforeAttrName tag =>
    if isLowerAlpha c then { p with tok := .attrName tag } else p.stop
  | .attrName tag =>
    if isLowerAlpha c ∨ c = '-' then p
    else if c = '=' then { p with tok := .beforeAttrValue tag }
    else p.stop
  | .beforeAttrValue tag =>
    if c = '"' then { p with tok := .attrValue tag } else p.stop
  | .attrValue tag =>
    if c = '"' then { p with tok := .afterAttrValue tag }
    else if c = '&' ∨ c = Char.ofNat 0 ∨ c = Char.ofNat 13 then p.stop
    else p
  | .afterAttrValue tag =>
    if c = '>' then p.emitStartTag tag
    else if c = ' ' then { p with tok := .beforeAttrName tag }
    else p.stop
  | .unmodelled => p

/-- The parser before the first character of a fragment. -/
def HtmlParser.start : HtmlParser :=
  { tok := .data, openTags := [], textRev := [] }

/-- The text content of the nodes parsed from `markup`, that is the `textContent` of
an element after `markup` is assigned to its `innerHTML`; `none` when the markup
leaves the modelled part of the parser. -/
def parsedText (markup : String) : Option String :=
  let p := markup.data.foldl htmlStep HtmlParser.start
  match p.tok with
  | .data => some (String.mk p.textRev.reverse)
  | _ => none

/-- An element given the markup `markup` shows the text `piece`: the text content
parsed from the markup contains it. -/
def shows (markup piece : String) : Prop :=
  match parsedText markup with
  | some text => piece.data <:+: text.data
  | none => False

instance (markup piece : String) : Decidable (shows markup piece) := by
  unfold shows
  cases parsedText markup <;> infer_instance

/-- A character that the parser reads as itself in text. -/
def plainChar (c : Char) : Bool :=
  !(decide (c = '<') || decide (c = '&') || decide (c = Char.ofNat 0) ||
    decide (c = Char.ofNat 13))

/-- A text free of markup: it has no `<`, no `&`, no NUL and no carriage return. -/
def PlainText (s : String) : Prop :=
  s.data.all plainChar = true

instance (s : String) : Decidable (PlainText s) := by
  unfold PlainText; infer_instance

/-- The rows the render step builds for the body `j`. -/
def rowsOf (j : PollJson) : List RowElement :=
  (j.«matches».getD []).map matchRow

/-- A status panel showing an earlier result: status "searching", one match row,
an empty ride banner. -/
def searchingPanel : StatusPanel :=
  { rrStatus := some "searching"
    matchesList := some [matchRow
      { driver__user__username := .str "alice", status := .str "pending",
        distance_to_pickup_km := .num (.finite false 23 1),
        eta_to_pickup_min := .num (.finite false 5 1) }]
    rideInfo := some "" }

/-- The poll body `{status: "searching", matches: [alice/pending/2.3/5], ride: null}`. -/
def searchingBody : PollJson :=
  { status := .str "searching"
    «matches» := some
      [{ driver__user__username := .str "alice", status := .str "pending",
         distance_to_pickup_km := .num (.finite false 23 1),
         eta_to_pickup_min := .num (.finite false 5 1) }]
    ride := none }

/-- The poll body `{status: "matched", matches: [], ride: {id: 42, driver: "bob",
status: "accepted"}}`. -/
def matchedBody : PollJson :=
  { status := .str "matched"
    «matches» := some []
    ride := some { id := .num (.finite false 42 2), driver := .str "bob", status := .str "accepted" } }

/-- The poll body `{status: "cancelled", matches: []}`, without a ride. -/
def cancelledBody : PollJson :=
  { status := .str "cancelled", «matches» := some [], ride := none }

/-- The poll body `{status: "searching", matches: [m]}` whose match `m` has the
driver name `&quot;alice&quot;`, status "pending", distance 2.3 and ETA 5. -/
def quotedMatchBody : PollJson :=
  { status := .str "searching"
    «matches» := some
      [{ driver__user__username := .str "&quot;alice&quot;", status := .str "pending",
         distance_to_pickup_km := .num (.finite false 23 1),
         eta_to_pickup_min := .num (.finite false 5 1) }]
    ride := none }

/-- The poll body `{status: "matched", matches: [], ride: r}` whose ride `r` has id
42, the driver name `&quot;bob&quot;` and status "accepted". -/
def quotedRideBody : PollJson :=
  { status := .str "matched"
    «matches» := some []
    ride := some
      { id := .num (.finite false 42 2), driver := .str "&quot;bob&quot;",
        status := .str "accepted" } }

/-- The JSON body `{"status": "error"}` of an error response. -/
def errorBody : PollJson :=
  { status := .str "error", «matches» := none, ride := none }

/-- The network of a tick in which the server answers with the given status and a
body that parses to `j`. -/
def answering (httpStatus : Nat) (j : PollJson) : String → FetchOutcome :=
  fun _ => .response httpStatus (some j)

/-- A status panel with its three anchors and nothing rendered yet. -/
def emptyPanel : StatusPanel :=
  { rrStatus := some "", matchesList := some [], rideInfo := some "" }

/-- A point is present in the form when both its latitude input and its longitude
input are non-empty. -/
def pointPresent (lat lng : String) : Prop :=
  lat ≠ "" ∧ lng ≠ ""

instance (lat lng : String) : Decidable (pointPresent lat lng) := by
  unfold pointPresent; infer_instance

/-- In each slot the longitude input is filled whenever the latitude input is. -/
def FormPaired (form : RideForm) : Prop :=
  (form.pickup_lat ≠ "" → form.pickup_lng ≠ "") ∧
    (form.dropoff_lat ≠ "" → form.dropoff_lng ≠ "")

/-- Before the second click no drop-off point exists: the drop-off latitude is empty
and every marker on the map is a pickup marker. -/
def NoDropYet (s : MapPage) : Prop :=
  s.clickCount < 2 → s.form.dropoff_lat = "" ∧ ∀ m ∈ s.layers, m.slot = Slot.pickup

/-- Consistency of the markers on the map with the two marker variables: stamps
are fresh and distinct, every marker on the map is the one its slot variable refers
to, and a marker a variable refers to is on the map and of that slot. -/
structure MarkersOk (s : MapPage) : Prop where
  stamp_lt : ∀ m ∈ s.layers, m.id < s.nextStamp
  nodup : (s.layers.map Marker.id).Nodup
  pickup_ref : ∀ m ∈ s.layers, m.slot = Slot.pickup → s.pickupMarker = some m.id
  drop_ref : ∀ m ∈ s.layers, m.slot = Slot.dropoff → s.dropMarker = some m.id
  pickup_on_map : ∀ i, s.pickupMarker = some i → ∃ m ∈ s.layers, m.id = i ∧ m.slot = Slot.pickup
  drop_on_map : ∀ i, s.dropMarker = some i → ∃ m ∈ s.layers, m.id = i ∧ m.slot = Slot.dropoff

/-! ## Conversions to text -/

theorem toDigitsCore_ne_nil (b : Nat) :
    ∀ (fuel n : Nat) (ds : List Char), ds ≠ [] → Nat.toDigitsCore b fuel n ds ≠ []
  | 0, _, ds, h => by simpa [Nat.toDigitsCore] using h
  | fuel + 1, n, ds, _ => by
    simp only [Nat.toDigitsCore]
    split
    · simp
    · exact toDigitsCore_ne_nil b fuel _ _ (by simp)

theorem toDigits_ne_nil (b n : Nat) : Nat.toDigits b n ≠ [] := by
  unfold Nat.toDigits
  simp only [Nat.toDigitsCore]
  split
  · simp
  · exact toDigitsCore_ne_nil b _ _ _ (by simp)

theorem finiteChars_ne_nil (s : Nat) (n : Int) : finiteChars s n ≠ [] := by
  unfold finiteChars
  simp only
  split_ifs <;> simp [toDigits_ne_nil]

theorem numberChars_ne_nil (x : JSNumber) : numberChars x ≠ [] := by
  cases x with
  | nan => simp [numberChars]
  | infinity negative => cases negative <;> simp [numberChars]
  | zero => simp [numberChars]
  | finite negative s n => cases negative <;> simp [numberChars, finiteChars_ne_nil]

/-- `ToString` of a Number is never the empty string. -/
theorem numberToString_ne_empty (x : JSNumber) : numberToString x ≠ "" := by
  intro h
  have h2 := congrArg String.data h
  simp [numberToString] at h2
  exact numberChars_ne_nil x h2

/-! ## The submit listener -/

theorem attachRideFormSubmit_installs : attachRideFormSubmit true = some submitListener := rfl

theorem permitsSubmission_iff (form : RideForm) :
    permitsSubmission form ↔ form.pickup_lat ≠ "" ∧ form.dropoff_lat ≠ "" := by
  unfold permitsSubmission submitListener truthy
  by_cases h1 : form.pickup_lat = "" <;> by_cases h2 : form.dropoff_lat = "" <;> simp [h1, h2]

/-- C1, as stated, fails: with `pickup_lat`, `dropoff_lat` and `dropoff_lng` filled in
and `pickup_lng` empty the pickup point is not present, yet the listener neither
prevents the default action nor alerts. -/
theorem submit_permitted_without_pickup_lng :
    permitsSubmission ⟨"6.5244", "", "6.6", "3.4"⟩ ∧
      ¬ (pointPresent (RideForm.mk "6.5244" "" "6.6" "3.4").pickup_lat
            (RideForm.mk "6.5244" "" "6.6" "3.4").pickup_lng ∧
          pointPresent (RideForm.mk "6.5244" "" "6.6" "3.4").dropoff_lat
            (RideForm.mk "6.5244" "" "6.6" "3.4").dropoff_lng) := by
  decide

/-- C1, amended: the submit listener permits submission (no `preventDefault`, no
alert) if and only if the `pickup_lat` and the `dropoff_lat` inputs are both
non-empty; in every other state of the four inputs it prevents the default action
and raises exactly the alert asking to select pickup and drop-off points. -/
theorem submit_gate_latitudes (form : RideForm) :
    (permitsSubmission form ↔ form.pickup_lat ≠ "" ∧ form.dropoff_lat ≠ "") ∧
      (¬ (form.pickup_lat ≠ "" ∧ form.dropoff_lat ≠ "") →
        submitListener form =
          { defaultPrevented := true, alerts := [selectPointsAlert] }) := by
  refine ⟨permitsSubmission_iff form, ?_⟩
  unfold submitListener truthy
  by_cases h1 : form.pickup_lat = "" <;> by_cases h2 : form.dropoff_lat = "" <;> simp [h1, h2]

theorem submit_gate_latitudes_witness :
    (permitsSubmission ⟨"", "3.3", "6.6", "3.4"⟩ ↔
        (RideForm.mk "" "3.3" "6.6" "3.4").pickup_lat ≠ "" ∧
          (RideForm.mk "" "3.3" "6.6" "3.4").dropoff_lat ≠ "") ∧
      submitListener ⟨"", "3.3", "6.6", "3.4"⟩ =
        { defaultPrevented := true, alerts := [selectPointsAlert] } :=
  ⟨(submit_gate_latitudes ⟨"", "3.3", "6.6", "3.4"⟩).1,
    (submit_gate_latitudes ⟨"", "3.3", "6.6", "3.4"⟩).2 (by decide)⟩

/-! ## Events on the map and the form -/

theorem initRequestMap_emptyForm : initRequestMap true emptyForm = some initialPage := rfl

theorem initRequestMap_no_anchor (form : RideForm) : initRequestMap false form = none := rfl

theorem mem_removeLayer {m : Marker} {ref : Nat} {layers : List Marker}
    (h : m ∈ removeLayer ref layers) : m ∈ layers := by
  unfold removeLayer at h
  exact (List.mem_filter.mp h).1

theorem find_mem {ref : Nat} {layers : List Marker} {m : Marker}
    (h : layers.find? (fun m => decide (m.id = ref)) = some m) : m ∈ layers ∧ m.id = ref := by
  refine ⟨List.mem_of_find?_eq_some h, ?_⟩
  simpa using List.find?_some h

theorem onMapClick_odd (latlng : LatLng) (s : MapPage) (h : (s.clickCount + 1) % 2 = 1) :
    onMapClick latlng s = setPickup latlng (bumpClickCount s) := by
  simp [onMapClick, bumpClickCount, h]

theorem onMapClick_even (latlng : LatLng) (s : MapPage) (h : (s.clickCount + 1) % 2 = 0) :
    onMapClick latlng s = setDrop latlng (bumpClickCount s) := by
  simp [onMapClick, bumpClickCount, h]

theorem onDragend_none (ref : Nat) (p : LatLng) (s : MapPage)
    (h : s.layers.find? (fun m => decide (m.id = ref)) = none) :
    onDragend ref p s = s := by
  simp [onDragend, h]

theorem onDragend_pickup (ref : Nat) (p : LatLng) (s : MapPage) (m : Marker)
    (h : s.layers.find? (fun m => decide (m.id = ref)) = some m) (hm : m.slot = Slot.pickup) :
    onDragend ref p s =
      { s with
        layers := moveMarker ref p s.layers
        form := { s.form with
          pickup_lat := numberToString p.lat
          pickup_lng := numberToString p.lng } } := by
  simp [onDragend, h, hm]

theorem onDragend_dropoff (ref : Nat) (p : LatLng) (s : MapPage) (m : Marker)
    (h : s.layers.find? (fun m => decide (m.id = ref)) = some m) (hm : m.slot = Slot.dropoff) :
    onDragend ref p s =
      { s with
        layers := moveMarker ref p s.layers
        form := { s.form with
          dropoff_lat := numberToString p.lat
          dropoff_lng := numberToString p.lng } } := by
  simp [onDragend, h, hm]

theorem handle_formPaired (s : MapPage) (e : Event) (h : FormPaired s.form) :
    FormPaired (handle s e).form := by
  obtain ⟨hp, hd⟩ := h
  cases e with
  | click latlng =>
    simp only [handle, onMapClick, bumpClickCount]
    split
    · exact ⟨fun _ => numberToString_ne_empty _, hd⟩
    · exact ⟨hp, fun _ => numberToString_ne_empty _⟩
  | dragend ref p =>
    simp only [handle, onDragend]
    split
    · exact ⟨hp, hd⟩
    · split
      · exact ⟨fun _ => numberToString_ne_empty _, hd⟩
      · exact ⟨hp, fun _ => numberToString_ne_empty _⟩

theorem handle_clickCount (s : MapPage) (e : Event) :
    (handle s e).clickCount = s.clickCount + clicksIn [e] := by
  cases e with
  | click latlng =>
    simp only [handle, onMapClick, bumpClickCount, clicksIn]
    split <;> rfl
  | dragend ref p =>
    simp only [handle, onDragend, clicksIn]
    split
    · rfl
    · split <;> rfl

theorem clicksIn_cons (e : Event) (es : List Event) :
    clicksIn (e :: es) = clicksIn [e] + clicksIn es := by
  cases e
  · simp [clicksIn, List.filter_cons]; omega
  · simp [clicksIn, List.filter_cons]

theorem runEvents_cons (s : MapPage) (e : Event) (es : List Event) :
    runEvents s (e :: es) = runEvents (handle s e) es := rfl

theorem runEvents_clickCount (es : List Event) :
    ∀ s : MapPage, (runEvents s es).clickCount = s.clickCount + clicksIn es := by
  induction es with
  | nil => intro s; simp [runEvents, clicksIn]
  | cons e es ih =>
    intro s
    rw [runEvents_cons, ih, handle_clickCount, clicksIn_cons e es]
    omega

theorem runEvents_formPaired (es : List Event) :
    ∀ s : MapPage, FormPaired s.form → FormPaired (runEvents s es).form := by
  induction es with
  | nil => intro s h; exact h
  | cons e es ih =>
    intro s h
    rw [runEvents_cons]
    exact ih (handle s e) (handle_formPaired s e h)

theorem mem_moveMarker_slot {ref : Nat} {p : LatLng} {layers : List Marker} {x : Marker}
    (hx : x ∈ moveMarker ref p layers) : ∃ y ∈ layers, y.slot = x.slot ∧ y.id = x.id := by
  simp only [moveMarker, List.mem_map] at hx
  obtain ⟨y, hy, rfl⟩ := hx
  refine ⟨y, hy, ?_⟩
  split <;> simp

theorem handle_noDropYet (s : MapPage) (e : Event) (h : NoDropYet s) :
    NoDropYet (handle s e) := by
  intro hc
  rw [handle_clickCount] at hc
  cases e with
  | click latlng =>
    have hc1 : clicksIn [Event.click latlng] = 1 := by simp [clicksIn]
    have hs : s.clickCount = 0 := by omega
    obtain ⟨h1, h2⟩ := h (by omega)
    simp only [handle]
    rw [onMapClick_odd latlng s (by omega)]
    refine ⟨h1, ?_⟩
    intro m hm
    simp only [setPickup, bumpClickCount] at hm
    rcases List.mem_append.mp hm with hm | hm
    · cases hpm : s.pickupMarker with
      | none => rw [hpm] at hm; exact h2 m hm
      | some old => rw [hpm] at hm; exact h2 m (mem_removeLayer hm)
    · simp at hm; rw [hm]
  | dragend ref p =>
    have hc1 : clicksIn [Event.dragend ref p] = 0 := by simp [clicksIn]
    obtain ⟨h1, h2⟩ := h (by omega)
    simp only [handle]
    cases hfind : s.layers.find? (fun m => decide (m.id = ref)) with
    | none => rw [onDragend_none ref p s hfind]; exact ⟨h1, h2⟩
    | some m =>
      rw [onDragend_pickup ref p s m hfind (h2 m (find_mem hfind).1)]
      refine ⟨h1, ?_⟩
      intro x hx
      obtain ⟨y, hy, hslot, _⟩ := mem_moveMarker_slot hx
      rw [← hslot]; exact h2 y hy

theorem runEvents_noDropYet (es : List Event) :
    ∀ s : MapPage, NoDropYet s → NoDropYet (runEvents s es) := by
  induction es with
  | nil => intro s h; exact h
  | cons e es ih =>
    intro s h
    rw [runEvents_cons]
    exact ih (handle s e) (handle_noDropYet s e h)

/-- C2: starting from the initial page (click counter 0, no markers, the four inputs
empty), after any finite sequence of map clicks and marker drag-ends at any
coordinates, whenever the submit listener permits submission all four coordinate
inputs are non-empty; and the listener blocks submission whenever the sequence
holds at most one click, so after zero clicks and after exactly one click. -/
theorem submission_needs_all_four (es : List Event) :
    (permitsSubmission (runEvents initialPage es).form →
        (runEvents initialPage es).form.pickup_lat ≠ "" ∧
        (runEvents initialPage es).form.pickup_lng ≠ "" ∧
        (runEvents initialPage es).form.dropoff_lat ≠ "" ∧
        (runEvents initialPage es).form.dropoff_lng ≠ "") ∧
      (clicksIn es ≤ 1 → ¬ permitsSubmission (runEvents initialPage es).form) := by
  have hpaired : FormPaired (runEvents initialPage es).form :=
    runEvents_formPaired es initialPage (by simp [FormPaired, initialPage, emptyForm])
  have hearly : NoDropYet (runEvents initialPage es) :=
    runEvents_noDropYet es initialPage (by simp [NoDropYet, initialPage, emptyForm])
  have hcount := runEvents_clickCount es initialPage
  constructor
  · intro hp
    obtain ⟨h1, h2⟩ := (permitsSubmission_iff _).mp hp
    exact ⟨h1, hpaired.1 h1, h2, hpaired.2 h2⟩
  · intro hle hp
    obtain ⟨_, h2⟩ := (permitsSubmission_iff _).mp hp
    have hlt : (runEvents initialPage es).clickCount < 2 := by
      rw [hcount]; simp [initialPage]; omega
    exact h2 (hearly hlt).1

/-! ## Markers on the map -/

theorem setPickup_layers (p : LatLng) (s : MapPage) :
    ∃ rest : List Marker,
      (setPickup p s).layers = rest ++ [⟨s.nextStamp, p, true, Slot.pickup⟩] ∧
      rest.Sublist s.layers ∧
      ∀ m, m ∈ rest ↔ m ∈ s.layers ∧ s.pickupMarker ≠ some m.id := by
  cases hpm : s.pickupMarker with
  | none => exact ⟨s.layers, by simp [setPickup, hpm], List.Sublist.refl _, by simp⟩
  | some old =>
    refine ⟨removeLayer old s.layers, by simp [setPickup, hpm], List.filter_sublist _, ?_⟩
    intro m
    simp only [removeLayer, List.mem_filter, decide_eq_true_eq, ne_eq, Option.some.injEq]
    constructor
    · rintro ⟨h1, h2⟩; exact ⟨h1, fun h => h2 h.symm⟩
    · rintro ⟨h1, h2⟩; exact ⟨h1, fun h => h2 h.symm⟩

theorem setDrop_layers (p : LatLng) (s : MapPage) :
    ∃ rest : List Marker,
      (setDrop p s).layers = rest ++ [⟨s.nextStamp, p, true, Slot.dropoff⟩] ∧
      rest.Sublist s.layers ∧
      ∀ m, m ∈ rest ↔ m ∈ s.layers ∧ s.dropMarker ≠ some m.id := by
  cases hdm : s.dropMarker with
  | none => exact ⟨s.layers, by simp [setDrop, hdm], List.Sublist.refl _, by simp⟩
  | some old =>
    refine ⟨removeLayer old s.layers, by simp [setDrop, hdm], List.filter_sublist _, ?_⟩
    intro m
    simp only [removeLayer, List.mem_filter, decide_eq_true_eq, ne_eq, Option.some.injEq]
    constructor
    · rintro ⟨h1, h2⟩; exact ⟨h1, fun h => h2 h.symm⟩
    · rintro ⟨h1, h2⟩; exact ⟨h1, fun h => h2 h.symm⟩

theorem MarkersOk.same_marker {s : MapPage} (h : MarkersOk s) {a b : Marker}
    (ha : a ∈ s.layers) (hb : b ∈ s.layers) (hab : a.id = b.id) : a = b :=
  List.inj_on_of_nodup_map h.nodup ha hb hab

/-- A marker of the drop-off slot is not the one the pickup variable refers to. -/
theorem MarkersOk.drop_not_pickup_ref {s : MapPage} (h : MarkersOk s) {m : Marker}
    (hm : m ∈ s.layers) (hslot : m.slot = Slot.dropoff) : s.pickupMarker ≠ some m.id := by
  intro hp
  obtain ⟨x, hx, hid, hxs⟩ := h.pickup_on_map _ hp
  have := h.same_marker hx hm hid
  rw [this, hslot] at hxs
  cases hxs

/-- A marker of the pickup slot is not the one the drop-off variable refers to. -/
theorem MarkersOk.pickup_not_drop_ref {s : MapPage} (h : MarkersOk s) {m : Marker}
    (hm : m ∈ s.layers) (hslot : m.slot = Slot.pickup) : s.dropMarker ≠ some m.id := by
  intro hp
  obtain ⟨x, hx, hid, hxs⟩ := h.drop_on_map _ hp
  have := h.same_marker hx hm hid
  rw [this, hslot] at hxs
  cases hxs

theorem nodup_ids_append_fresh {rest layers : List Marker} {n : Nat} (m : Marker)
    (hsub : rest.Sublist layers) (hnd : (layers.map Marker.id).Nodup)
    (hlt : ∀ x ∈ layers, x.id < n) (hm : m.id = n) :
    ((rest ++ [m]).map Marker.id).Nodup := by
  rw [List.map_append, List.nodup_append]
  refine ⟨hnd.sublist (hsub.map _), by simp, ?_⟩
  intro i hi hi2
  simp only [List.map_cons, List.map_nil, List.mem_singleton] at hi2
  obtain ⟨x, hx, rfl⟩ := List.mem_map.mp hi
  have := hlt x (hsub.subset hx)
  omega

theorem setPickup_ok (p : LatLng) (s : MapPage) (h : MarkersOk s) :
    MarkersOk (setPickup p s) := by
  obtain ⟨rest, hl, hsub, hmem⟩ := setPickup_layers p s
  have hn : (setPickup p s).nextStamp = s.nextStamp + 1 := rfl
  have hpm : (setPickup p s).pickupMarker = some s.nextStamp := rfl
  have hdm : (setPickup p s).dropMarker = s.dropMarker := rfl
  refine ⟨?_, ?_, ?_, ?_, ?_, ?_⟩
  · intro m hm
    rw [hl] at hm
    rw [hn]
    rcases List.mem_append.mp hm with hm | hm
    · have := h.stamp_lt m ((hmem m).mp hm).1; omega
    · simp at hm; rw [hm]; simp
  · rw [hl]
    exact nodup_ids_append_fresh _ hsub h.nodup h.stamp_lt rfl
  · intro m hm hslot
    rw [hl] at hm
    rw [hpm]
    rcases List.mem_append.mp hm with hm | hm
    · obtain ⟨h1, h2⟩ := (hmem m).mp hm
      exact absurd (h.pickup_ref m h1 hslot) h2
    · simp at hm; rw [hm]
  · intro m hm hslot
    rw [hl] at hm
    rw [hdm]
    rcases List.mem_append.mp hm with hm | hm
    · exact h.drop_ref m ((hmem m).mp hm).1 hslot
    · simp at hm; rw [hm] at hslot; cases hslot
  · intro i hi
    rw [hpm] at hi
    rw [hl]
    refine ⟨⟨s.nextStamp, p, true, Slot.pickup⟩, by simp, ?_, rfl⟩
    simpa using hi
  · intro i hi
    rw [hdm] at hi
    obtain ⟨m, hm, hid, hslot⟩ := h.drop_on_map i hi
    rw [hl]
    refine ⟨m, List.mem_append.mpr (Or.inl ((hmem m).mpr ⟨hm, ?_⟩)), hid, hslot⟩
    exact h.drop_not_pickup_ref hm hslot

theorem setDrop_ok (p : LatLng) (s : MapPage) (h : MarkersOk s) :
    MarkersOk (setDrop p s) := by
  obtain ⟨rest, hl, hsub, hmem⟩ := setDrop_layers p s
  have hn : (setDrop p s).nextStamp = s.nextStamp + 1 := rfl
  have hdm : (setDrop p s).dropMarker = some s.nextStamp := rfl
  have hpm : (setDrop p s).pickupMarker = s.pickupMarker := rfl
  refine ⟨?_, ?_, ?_, ?_, ?_, ?_⟩
  · intro m hm
    rw [hl] at hm
    rw [hn]
    rcases List.mem_append.mp hm with hm | hm
    · have := h.stamp_lt m ((hmem m).mp hm).1; omega
    · simp at hm; rw [hm]; simp
  · rw [hl]
    exact nodup_ids_append_fresh _ hsub h.nodup h.stamp_lt rfl
  · intro m hm hslot
    rw [hl] at hm
    rw [hpm]
    rcases List.mem_append.mp hm with hm | hm
    · exact h.pickup_ref m ((hmem m).mp hm).1 hslot
    · simp at hm; rw [hm] at hslot; cases hslot
  · intro m hm hslot
    rw [hl] at hm
    rw [hdm]
    rcases List.mem_append.mp hm with hm | hm
    · obtain ⟨h1, h2⟩ := (hmem m).mp hm
      exact absurd (h.drop_ref m h1 hslot) h2
    · simp at hm; rw [hm]
  · intro i hi
    rw [hpm] at hi
    obtain ⟨m, hm, hid, hslot⟩ := h.pickup_on_map i hi
    rw [hl]
    refine ⟨m, List.mem_append.mpr (Or.inl ((hmem m).mpr ⟨hm, ?_⟩)), hid, hslot⟩
    exact h.pickup_not_drop_ref hm hslot
  · intro i hi
    rw [hdm] at hi
    rw [hl]
    refine ⟨⟨s.nextStamp, p, true, Slot.dropoff⟩, by simp, ?_, rfl⟩
    simpa using hi

theorem bumpClickCount_ok (s : MapPage) (h : MarkersOk s) : MarkersOk (bumpClickCount s) :=
  ⟨h.stamp_lt, h.nodup, h.pickup_ref, h.drop_ref, h.pickup_on_map, h.drop_on_map⟩

theorem moveMarker_ids (ref : Nat) (p : LatLng) (layers : List Marker) :
    (moveMarker ref p layers).map Marker.id = layers.map Marker.id := by
  simp only [moveMarker, List.map_map]
  apply List.map_congr_left
  intro m _
  simp only [Function.comp]
  split <;> rfl

theorem mem_moveMarker_of_mem (ref : Nat) (p : LatLng) {layers : List Marker} {y : Marker}
    (hy : y ∈ layers) : ∃ x ∈ moveMarker ref p layers, x.slot = y.slot ∧ x.id = y.id := by
  refine ⟨_, List.mem_map.mpr ⟨y, hy, rfl⟩, ?_⟩
  split <;> simp

/-- Moving markers keeps the consistency of markers and variables, whatever happens
to the other parts of the page. -/
theorem moved_ok (ref : Nat) (p : LatLng) (s t : MapPage) (h : MarkersOk s)
    (hl : t.layers = moveMarker ref p s.layers) (hn : t.nextStamp = s.nextStamp)
    (hp : t.pickupMarker = s.pickupMarker) (hd : t.dropMarker = s.dropMarker) :
    MarkersOk t := by
  refine ⟨?_, ?_, ?_, ?_, ?_, ?_⟩
  · intro m hm
    rw [hl] at hm
    obtain ⟨y, hy, _, hid⟩ := mem_moveMarker_slot hm
    rw [hn, ← hid]; exact h.stamp_lt y hy
  · rw [hl, moveMarker_ids]; exact h.nodup
  · intro m hm hslot
    rw [hl] at hm
    obtain ⟨y, hy, hs, hid⟩ := mem_moveMarker_slot hm
    rw [hp, ← hid]; exact h.pickup_ref y hy (hs.trans hslot)
  · intro m hm hslot
    rw [hl] at hm
    obtain ⟨y, hy, hs, hid⟩ := mem_moveMarker_slot hm
    rw [hd, ← hid]; exact h.drop_ref y hy (hs.trans hslot)
  · intro i hi
    rw [hp] at hi
    obtain ⟨y, hy, hid, hs⟩ := h.pickup_on_map i hi
    obtain ⟨x, hx, hxs, hxid⟩ := mem_moveMarker_of_mem ref p hy
    rw [hl]
    exact ⟨x, hx, hxid.trans hid, hxs.trans hs⟩
  · intro i hi
    rw [hd] at hi
    obtain ⟨y, hy, hid, hs⟩ := h.drop_on_map i hi
    obtain ⟨x, hx, hxs, hxid⟩ := mem_moveMarker_of_mem ref p hy
    rw [hl]
    exact ⟨x, hx, hxid.trans hid, hxs.trans hs⟩

theorem handle_ok (s : MapPage) (e : Event) (h : MarkersOk s) : MarkersOk (handle s e) := by
  cases e with
  | click latlng =>
    simp only [handle, onMapClick]
    split
    · exact setPickup_ok _ _ (bumpClickCount_ok s h)
    · exact setDrop_ok _ _ (bumpClickCount_ok s h)
  | dragend ref p =>
    simp only [handle]
    cases hfind : s.layers.find? (fun m => decide (m.id = ref)) with
    | none => rw [onDragend_none ref p s hfind]; exact h
    | some m =>
      cases hslot : m.slot with
      | pickup =>
        rw [onDragend_pickup ref p s m hfind hslot]
        exact moved_ok ref p s _ h rfl rfl rfl rfl
      | dropoff =>
        rw [onDragend_dropoff ref p s m hfind hslot]
        exact moved_ok ref p s _ h rfl rfl rfl rfl

theorem step_ok (s : MapPage) (st : Step) (h : MarkersOk s) : MarkersOk (step s st) := by
  cases st with
  | event e => exact handle_ok s e h
  | callSetPickup latlng => exact setPickup_ok latlng s h
  | callSetDrop latlng => exact setDrop_ok latlng s h

theorem initialPage_ok : MarkersOk initialPage := by
  refine ⟨?_, ?_, ?_, ?_, ?_, ?_⟩ <;> simp [initialPage]

theorem runSteps_ok (steps : List Step) : ∀ s : MapPage, MarkersOk s → MarkersOk (runSteps s steps) := by
  induction steps with
  | nil => intro s h; exact h
  | cons st steps ih => intro s h; exact ih (step s st) (step_ok s st h)

theorem runEvents_ok (es : List Event) : ∀ s : MapPage, MarkersOk s → MarkersOk (runEvents s es) := by
  induction es with
  | nil => intro s h; exact h
  | cons e es ih => intro s h; exact ih (handle s e) (handle_ok s e h)

theorem setPickup_layers_eq (p : LatLng) (s : MapPage) :
    (setPickup p s).layers =
      s.layers.filter (fun m => decide (s.pickupMarker ≠ some m.id))
        ++ [⟨s.nextStamp, p, true, Slot.pickup⟩] := by
  cases hpm : s.pickupMarker with
  | none => simp [setPickup, hpm]
  | some old =>
    simp only [setPickup, hpm, removeLayer, ne_eq, Option.some.injEq]
    congr 1
    apply List.filter_congr
    intro m _
    simp only [decide_eq_decide]
    exact ⟨fun h h2 => h h2.symm, fun h h2 => h h2.symm⟩

theorem setDrop_layers_eq (p : LatLng) (s : MapPage) :
    (setDrop p s).layers =
      s.layers.filter (fun m => decide (s.dropMarker ≠ some m.id))
        ++ [⟨s.nextStamp, p, true, Slot.dropoff⟩] := by
  cases hdm : s.dropMarker with
  | none => simp [setDrop, hdm]
  | some old =>
    simp only [setDrop, hdm, removeLayer, ne_eq, Option.some.injEq]
    congr 1
    apply List.filter_congr
    intro m _
    simp only [decide_eq_decide]
    exact ⟨fun h h2 => h h2.symm, fun h h2 => h h2.symm⟩

/-- After `setPickup(p)` the marker it created is the only pickup marker on the map. -/
theorem markersOf_pickup_setPickup (p : LatLng) (s : MapPage) (h : MarkersOk s) :
    markersOf Slot.pickup (setPickup p s) = [⟨s.nextStamp, p, true, Slot.pickup⟩] := by
  unfold markersOf
  rw [setPickup_layers_eq, List.filter_append, List.filter_filter]
  have h1 : s.layers.filter
      (fun m => decide (m.slot = Slot.pickup) && decide (s.pickupMarker ≠ some m.id)) = [] := by
    rw [List.filter_eq_nil_iff]
    intro m hm
    simp only [Bool.and_eq_true, decide_eq_true_eq, not_and, not_not, ne_eq]
    intro hslot
    exact h.pickup_ref m hm hslot
  rw [h1]
  simp

/-- A call of `setPickup` leaves the drop-off markers on the map as they are. -/
theorem markersOf_dropoff_setPickup (p : LatLng) (s : MapPage) (h : MarkersOk s) :
    markersOf Slot.dropoff (setPickup p s) = markersOf Slot.dropoff s := by
  unfold markersOf
  rw [setPickup_layers_eq, List.filter_append, List.filter_filter]
  have h1 : s.layers.filter
      (fun m => decide (m.slot = Slot.dropoff) && decide (s.pickupMarker ≠ some m.id)) =
      s.layers.filter (fun m => decide (m.slot = Slot.dropoff)) := by
    apply List.filter_congr
    intro m hm
    by_cases hslot : m.slot = Slot.dropoff
    · simp [hslot, h.drop_not_pickup_ref hm hslot]
    · simp [hslot]
  rw [h1]
  simp

/-- After `setDrop(p)` the marker it created is the only drop-off marker on the map. -/
theorem markersOf_dropoff_setDrop (p : LatLng) (s : MapPage) (h : MarkersOk s) :
    markersOf Slot.dropoff (setDrop p s) = [⟨s.nextStamp, p, true, Slot.dropoff⟩] := by
  unfold markersOf
  rw [setDrop_layers_eq, List.filter_append, List.filter_filter]
  have h1 : s.layers.filter
      (fun m => decide (m.slot = Slot.dropoff) && decide (s.dropMarker ≠ some m.id)) = [] := by
    rw [List.filter_eq_nil_iff]
    intro m hm
    simp only [Bool.and_eq_true, decide_eq_true_eq, not_and, not_not, ne_eq]
    intro hslot
    exact h.drop_ref m hm hslot
  rw [h1]
  simp

/-- A call of `setDrop` leaves the pickup markers on the map as they are. -/
theorem markersOf_pickup_setDrop (p : LatLng) (s : MapPage) (h : MarkersOk s) :
    markersOf Slot.pickup (setDrop p s) = markersOf Slot.pickup s := by
  unfold markersOf
  rw [setDrop_layers_eq, List.filter_append, List.filter_filter]
  have h1 : s.layers.filter
      (fun m => decide (m.slot = Slot.pickup) && decide (s.dropMarker ≠ some m.id)) =
      s.layers.filter (fun m => decide (m.slot = Slot.pickup)) := by
    apply List.filter_congr
    intro m hm
    by_cases hslot : m.slot = Slot.pickup
    · simp [hslot, h.pickup_not_drop_ref hm hslot]
    · simp [hslot]
  rw [h1]
  simp

theorem markersOf_length_le_one (s : MapPage) (h : MarkersOk s) (slot : Slot) :
    (markersOf slot s).length ≤ 1 := by
  have hnd : ((markersOf slot s).map Marker.id).Nodup :=
    h.nodup.sublist ((List.filter_sublist _).map _)
  have hmem : ∀ m ∈ markersOf slot s, m ∈ s.layers ∧ m.slot = slot := by
    intro m hm
    have := List.mem_filter.mp hm
    exact ⟨this.1, by simpa using this.2⟩
  match hl : markersOf slot s with
  | [] => simp
  | [_] => simp
  | a :: b :: t =>
    exfalso
    rw [hl] at hnd hmem
    obtain ⟨ha, has⟩ := hmem a (by simp)
    obtain ⟨hb, hbs⟩ := hmem b (by simp)
    have hid : a.id = b.id := by
      cases slot with
      | pickup =>
        have h1 := h.pickup_ref a ha has
        have h2 := h.pickup_ref b hb hbs
        rw [h1] at h2
        exact Option.some.inj h2
      | dropoff =>
        have h1 := h.drop_ref a ha has
        have h2 := h.drop_ref b hb hbs
        rw [h1] at h2
        exact Option.some.inj h2
    simp [hid] at hnd

theorem setPickup_ne_setDrop (p : LatLng) (s : MapPage) : setPickup p s ≠ setDrop p s := by
  intro h
  have hl := congrArg MapPage.layers h
  rw [setPickup_layers_eq, setDrop_layers_eq] at hl
  have := (List.append_inj' hl rfl).2
  simp at this

theorem find_of_mem (s : MapPage) (h : MarkersOk s) (m : Marker) (hm : m ∈ s.layers) :
    s.layers.find? (fun x => decide (x.id = m.id)) = some m := by
  cases hfind : s.layers.find? (fun x => decide (x.id = m.id)) with
  | none =>
    have := List.find?_eq_none.mp hfind m hm
    simp at this
  | some x =>
    obtain ⟨hx, hid⟩ := find_mem hfind
    rw [h.same_marker hx hm hid]

theorem mem_moveMarker_self {ref : Nat} {p : LatLng} {layers : List Marker} {m : Marker}
    (hm : m ∈ layers) (hid : m.id = ref) :
    (⟨m.id, p, m.draggable, m.slot⟩ : Marker) ∈ moveMarker ref p layers := by
  refine List.mem_map.mpr ⟨m, hm, ?_⟩
  simp [hid]

/-! ## Routing of clicks, placement and dragging -/

/-- C3: starting from the initial page (click counter 0), let `k - 1` clicks, with
marker drags in between or not, have been handled.  The next click, the `k`-th, is
routed to `setPickup` if and only if `k` is odd and to `setDrop` if and only if `k`
is even, and it updates one slot only: when `k` is odd the drop-off variable, the
drop-off markers on the map and the two drop-off inputs are unchanged, and when `k`
is even the same holds of the pickup slot. -/
theorem click_routes_by_parity (es : List Event) (latlng : LatLng) :
    (handle (runEvents initialPage es) (Event.click latlng) =
        setPickup latlng (bumpClickCount (runEvents initialPage es)) ↔
      (clicksIn es + 1) % 2 = 1) ∧
    (handle (runEvents initialPage es) (Event.click latlng) =
        setDrop latlng (bumpClickCount (runEvents initialPage es)) ↔
      (clicksIn es + 1) % 2 = 0) ∧
    ((clicksIn es + 1) % 2 = 1 →
      (handle (runEvents initialPage es) (Event.click latlng)).dropMarker =
          (runEvents initialPage es).dropMarker ∧
        markersOf Slot.dropoff (handle (runEvents initialPage es) (Event.click latlng)) =
          markersOf Slot.dropoff (runEvents initialPage es) ∧
        (handle (runEvents initialPage es) (Event.click latlng)).form.dropoff_lat =
          (runEvents initialPage es).form.dropoff_lat ∧
        (handle (runEvents initialPage es) (Event.click latlng)).form.dropoff_lng =
          (runEvents initialPage es).form.dropoff_lng) ∧
    ((clicksIn es + 1) % 2 = 0 →
      (handle (runEvents initialPage es) (Event.click latlng)).pickupMarker =
          (runEvents initialPage es).pickupMarker ∧
        markersOf Slot.pickup (handle (runEvents initialPage es) (Event.click latlng)) =
          markersOf Slot.pickup (runEvents initialPage es) ∧
        (handle (runEvents initialPage es) (Event.click latlng)).form.pickup_lat =
          (runEvents initialPage es).form.pickup_lat ∧
        (handle (runEvents initialPage es) (Event.click latlng)).form.pickup_lng =
          (runEvents initialPage es).form.pickup_lng) := by
  have hcount : (runEvents initialPage es).clickCount = clicksIn es := by
    rw [runEvents_clickCount]; simp [initialPage]
  have hok := bumpClickCount_ok _ (runEvents_ok es initialPage initialPage_ok)
  generalize runEvents initialPage es = s at hcount hok
  simp only [handle]
  rw [← hcount]
  rcases Nat.mod_two_eq_zero_or_one (s.clickCount + 1) with hpar | hpar
  · rw [onMapClick_even latlng s hpar, hpar]
    refine ⟨?_, ?_, ?_, ?_⟩
    · simp only [zero_ne_one, iff_false]
      exact fun h => setPickup_ne_setDrop _ _ h.symm
    · simp
    · intro h; cases h
    · intro _
      exact ⟨rfl, markersOf_pickup_setDrop _ _ hok, rfl, rfl⟩
  · rw [onMapClick_odd latlng s hpar, hpar]
    refine ⟨?_, ?_, ?_, ?_⟩
    · simp
    · simp only [one_ne_zero, iff_false]
      exact setPickup_ne_setDrop _ _
    · intro _
      exact ⟨rfl, markersOf_dropoff_setPickup _ _ hok, rfl, rfl⟩
    · intro h; cases h

theorem click_routes_by_parity_witness :
    (handle (runEvents initialPage []) (Event.click ⟨.finite false 65244 1, .finite false 33792 1⟩)).dropMarker =
        (runEvents initialPage []).dropMarker ∧
      (handle (runEvents initialPage [Event.click ⟨.zero, .zero⟩])
          (Event.click ⟨.finite false 65244 1, .finite false 33792 1⟩)).form.pickup_lat =
        (runEvents initialPage [Event.click ⟨.zero, .zero⟩]).form.pickup_lat :=
  ⟨((click_routes_by_parity [] ⟨.finite false 65244 1, .finite false 33792 1⟩).2.2.1
      (by decide)).1,
    ((click_routes_by_parity [Event.click ⟨.zero, .zero⟩]
      ⟨.finite false 65244 1, .finite false 33792 1⟩).2.2.2 (by decide)).2.2.1⟩

theorem submission_needs_all_four_witness :
    ((runEvents initialPage
          [Event.click ⟨.zero, .finite false 33792 1⟩,
            Event.click ⟨.finite false 65 1, .zero⟩]).form.pickup_lat ≠ "" ∧
        (runEvents initialPage
          [Event.click ⟨.zero, .finite false 33792 1⟩,
            Event.click ⟨.finite false 65 1, .zero⟩]).form.pickup_lng ≠ "" ∧
        (runEvents initialPage
          [Event.click ⟨.zero, .finite false 33792 1⟩,
            Event.click ⟨.finite false 65 1, .zero⟩]).form.dropoff_lat ≠ "" ∧
        (runEvents initialPage
          [Event.click ⟨.zero, .finite false 33792 1⟩,
            Event.click ⟨.finite false 65 1, .zero⟩]).form.dropoff_lng ≠ "") ∧
      ¬ permitsSubmission
          (runEvents initialPage
            [Event.click ⟨.zero, .finite false 33792 1⟩, Event.dragend 0 ⟨.zero, .zero⟩]).form :=
  ⟨(submission_needs_all_four
      [Event.click ⟨.zero, .finite false 33792 1⟩,
        Event.click ⟨.finite false 65 1, .zero⟩]).1 (by decide),
    (submission_needs_all_four
      [Event.click ⟨.zero, .finite false 33792 1⟩, Event.dragend 0 ⟨.zero, .zero⟩]).2
      (by decide)⟩

/-- C9: on the page reached from the initial page by any sequence of events and
placement calls, `setPickup(P)` followed by `setPickup(Q)` leaves exactly one pickup
marker on the map, it is located at `Q`, the pickup variable refers to it, and the
`pickup_lat` and `pickup_lng` inputs hold the latitude and longitude of `Q`; the same
holds of `setDrop` and the drop-off slot; and the page itself holds at most one
pickup marker and at most one drop-off marker. -/
theorem placement_replaces_marker (steps : List Step) (P Q : LatLng) :
    (markersOf Slot.pickup (setPickup Q (setPickup P (runSteps initialPage steps))) =
        [⟨(runSteps initialPage steps).nextStamp + 1, Q, true, Slot.pickup⟩] ∧
      (setPickup Q (setPickup P (runSteps initialPage steps))).pickupMarker =
        some ((runSteps initialPage steps).nextStamp + 1) ∧
      (setPickup Q (setPickup P (runSteps initialPage steps))).form.pickup_lat =
        numberToString Q.lat ∧
      (setPickup Q (setPickup P (runSteps initialPage steps))).form.pickup_lng =
        numberToString Q.lng) ∧
    (markersOf Slot.dropoff (setDrop Q (setDrop P (runSteps initialPage steps))) =
        [⟨(runSteps initialPage steps).nextStamp + 1, Q, true, Slot.dropoff⟩] ∧
      (setDrop Q (setDrop P (runSteps initialPage steps))).dropMarker =
        some ((runSteps initialPage steps).nextStamp + 1) ∧
      (setDrop Q (setDrop P (runSteps initialPage steps))).form.dropoff_lat =
        numberToString Q.lat ∧
      (setDrop Q (setDrop P (runSteps initialPage steps))).form.dropoff_lng =
        numberToString Q.lng) ∧
    (markersOf Slot.pickup (runSteps initialPage steps)).length ≤ 1 ∧
    (markersOf Slot.dropoff (runSteps initialPage steps)).length ≤ 1 := by
  have hok := runSteps_ok steps initialPage initialPage_ok
  generalize runSteps initialPage steps = s at hok
  refine ⟨⟨?_, rfl, rfl, rfl⟩, ⟨?_, rfl, rfl, rfl⟩, markersOf_length_le_one s hok _,
    markersOf_length_le_one s hok _⟩
  · exact markersOf_pickup_setPickup Q _ (setPickup_ok P s hok)
  · exact markersOf_dropoff_setDrop Q _ (setDrop_ok P s hok)

/-- C10: on the page reached from the initial page by any sequence of events and
placement calls, for every marker `m` on the map and every point `R`, the end of a
drag of `m` released at `R` leaves the marker at `R` and sets the latitude and
longitude inputs of the slot of `m` to those of `R`; the click counter, the two
marker variables and the inputs of the other slot are unchanged. -/
theorem dragend_updates_slot (steps : List Step) (m : Marker) (R : LatLng)
    (hm : m ∈ (runSteps initialPage steps).layers) :
    (handle (runSteps initialPage steps) (Event.dragend m.id R)).clickCount =
        (runSteps initialPage steps).clickCount ∧
      (handle (runSteps initialPage steps) (Event.dragend m.id R)).pickupMarker =
        (runSteps initialPage steps).pickupMarker ∧
      (handle (runSteps initialPage steps) (Event.dragend m.id R)).dropMarker =
        (runSteps initialPage steps).dropMarker ∧
      (⟨m.id, R, m.draggable, m.slot⟩ : Marker) ∈
        (handle (runSteps initialPage steps) (Event.dragend m.id R)).layers ∧
      (m.slot = Slot.pickup →
        (handle (runSteps initialPage steps) (Event.dragend m.id R)).form =
          { (runSteps initialPage steps).form with
            pickup_lat := numberToString R.lat
            pickup_lng := numberToString R.lng }) ∧
      (m.slot = Slot.dropoff →
        (handle (runSteps initialPage steps) (Event.dragend m.id R)).form =
          { (runSteps initialPage steps).form with
            dropoff_lat := numberToString R.lat
            dropoff_lng := numberToString R.lng }) := by
  have hok := runSteps_ok steps initialPage initialPage_ok
  generalize runSteps initialPage steps = s at hok hm
  have hfind := find_of_mem s hok m hm
  simp only [handle]
  cases hslot : m.slot with
  | pickup =>
    rw [onDragend_pickup m.id R s m hfind hslot]
    refine ⟨rfl, rfl, rfl, ?_, fun _ => rfl, fun h => (by cases h)⟩
    rw [← hslot]
    exact mem_moveMarker_self hm rfl
  | dropoff =>
    rw [onDragend_dropoff m.id R s m hfind hslot]
    refine ⟨rfl, rfl, rfl, ?_, fun h => (by cases h), fun _ => rfl⟩
    rw [← hslot]
    exact mem_moveMarker_self hm rfl

theorem dragend_updates_slot_witness :
    (handle
        (runSteps initialPage
          [Step.event (Event.click ⟨.finite false 65244 1, .finite false 33792 1⟩)])
        (Event.dragend 0 ⟨.finite false 66 1, .zero⟩)).form =
      { pickup_lat := "6.6", pickup_lng := "0", dropoff_lat := "", dropoff_lng := "" } :=
  (dragend_updates_slot
    [Step.event (Event.click ⟨.finite false 65244 1, .finite false 33792 1⟩)]
    ⟨0, ⟨.finite false 65244 1, .finite false 33792 1⟩, true, Slot.pickup⟩
    ⟨.finite false 66 1, .zero⟩ (by decide)).2.2.2.2.1 rfl

/-! ## The poll tick -/

theorem appendMatches_some (ms : List MatchJson) :
    ∀ (d : StatusPanel) (children : List RowElement), d.matchesList = some children →
      appendMatches ms d = { d with matchesList := some (children ++ ms.map matchRow) } := by
  induction ms with
  | nil => intro d children h; simp [appendMatches, ← h]
  | cons m ms ih =>
    intro d children h
    have h2 := ih (appendChild (matchRow m) d) (children ++ [matchRow m])
      (by simp [appendChild, h])
    simp only [appendMatches, List.foldl_cons] at h2 ⊢
    rw [h2]
    simp [appendChild]

/-- The panel after the render step, anchor by anchor.  The status text is replaced
when `#rr-status` exists; the rows are replaced when `#rr-status` and `#matches-list`
exist; the banner is replaced when those two and `#ride-info` exist and the body has
a ride, and is left as it was otherwise. -/
theorem render_state (j : PollJson) (d : StatusPanel) :
    (render j d).state =
      { rrStatus := d.rrStatus.map (fun _ => textContentOf j.status)
        matchesList :=
          if d.rrStatus = none then d.matchesList
          else d.matchesList.map (fun _ => rowsOf j)
        rideInfo :=
          if d.rrStatus = none ∨ d.matchesList = none then d.rideInfo
          else
            match j.ride with
            | none => d.rideInfo
            | some r => d.rideInfo.map (fun _ => rideBanner r) } := by
  obtain ⟨st, ml, ri⟩ := d
  cases st with
  | none => simp [render, setStatusText, Completion.andThen, Completion.state]
  | some t =>
    cases ml with
    | none => simp [render, setStatusText, clearMatches, Completion.andThen, Completion.state]
    | some children =>
      simp only [render, setStatusText, clearMatches, Completion.andThen]
      rw [appendMatches_some _ _ [] rfl]
      cases hr : j.ride with
      | none => simp [setRideInfo, Completion.state, rowsOf]
      | some r =>
        cases ri with
        | none => simp [setRideInfo, Completion.state, rowsOf]
        | some b => simp [setRideInfo, Completion.state, rowsOf]

theorem pollRequest_normal (REQUEST_ID : Option JSPrim) (fetch : String → FetchOutcome)
    (w : PollWorld) : ∃ w2, pollRequest REQUEST_ID fetch w = .normal w2 := by
  unfold pollRequest
  split
  · exact ⟨_, rfl⟩
  · exact ⟨_, rfl⟩
  · simp only
    split
    · exact ⟨_, rfl⟩
    · exact ⟨_, rfl⟩

theorem pollRequest_defined (requestId : JSPrim) (hid : requestId ≠ JSPrim.undefined)
    (fetch : String → FetchOutcome) (w : PollWorld) :
    pollRequest (some requestId) fetch w =
      match pollTry (fetch (pollUrl requestId)) w.panel with
      | .normal d => .normal { w with panel := d }
      | .throw e d => .normal { panel := d, console := w.console ++ [e] } := by
  cases requestId with
  | undefined => exact absurd rfl hid
  | null => rfl
  | bool b => rfl
  | num x => rfl
  | str t => rfl

/-- A tick whose body parses to `j` leaves the panel that the render step leaves. -/
theorem pollRequest_success (requestId : JSPrim) (hid : requestId ≠ JSPrim.undefined)
    (fetch : String → FetchOutcome) (httpStatus : Nat) (j : PollJson) (w : PollWorld)
    (hfetch : fetch (pollUrl requestId) = .response httpStatus (some j)) :
    (pollRequest (some requestId) fetch w).state.panel = (render j w.panel).state := by
  rw [pollRequest_defined requestId hid, hfetch]
  simp only [pollTry]
  cases render j w.panel <;> rfl

/-! ## Text of the rendered markup -/

theorem plainChar_iff (c : Char) :
    plainChar c = true ↔ c ≠ '<' ∧ c ≠ '&' ∧ c ≠ Char.ofNat 0 ∧ c ≠ Char.ofNat 13 := by
  simp [plainChar, not_or, and_assoc]

theorem htmlStep_plain (c : Char) (h : plainChar c = true) (st : List (List Char))
    (t : List Char) : htmlStep ⟨.data, st, t⟩ c = ⟨.data, st, c :: t⟩ := by
  obtain ⟨h1, h2, h3, h4⟩ := (plainChar_iff c).mp h
  simp [htmlStep, dataState, h1, h2, h3, h4, HtmlParser.emitChar]

/-- Text free of markup is inserted as it stands. -/
theorem run_plain (cs : List Char) :
    (∀ c ∈ cs, plainChar c = true) → ∀ (st : List (List Char)) (t : List Char),
      cs.foldl htmlStep ⟨.data, st, t⟩ = ⟨.data, st, cs.reverse ++ t⟩ := by
  induction cs with
  | nil => intro _ st t; rfl
  | cons c cs ih =>
    intro h st t
    rw [List.foldl_cons, htmlStep_plain c (h c (by simp)) st t,
      ih (fun x hx => h x (by simp [hx])) st (c :: t)]
    simp

theorem run_plainText (s : String) (h : PlainText s) (st : List (List Char)) (t : List Char) :
    s.data.foldl htmlStep ⟨.data, st, t⟩ = ⟨.data, st, s.data.reverse ++ t⟩ :=
  run_plain s.data (by simpa [PlainText, List.all_eq_true] using h) st t

theorem run_row_open (st : List (List Char)) (t : List Char) :
    "<div><strong>".data.foldl htmlStep ⟨.data, st, t⟩ =
      ⟨.data, "strong".data :: "div".data :: st, t⟩ := by
  simp [htmlStep, dataState, isLowerAlpha, isAlphanumeric, HtmlParser.emitStartTag, flowTag,
    HtmlParser.stop, HtmlParser.emitChar]

theorem run_row_name_end (st : List (List Char)) (t : List Char) :
    "</strong> — ".data.foldl htmlStep ⟨.data, "strong".data :: st, t⟩ =
      ⟨.data, st, " — ".data.reverse ++ t⟩ := by
  simp [htmlStep, dataState, isLowerAlpha, isAlphanumeric, HtmlParser.emitEndTag, flowTag,
    HtmlParser.stop, HtmlParser.emitChar]

theorem run_row_detail_open (st : List (List Char)) (t : List Char) :
    " <div class=\"small text-muted\">Dist: ".data.foldl htmlStep ⟨.data, st, t⟩ =
      ⟨.data, "div".data :: st, " Dist: ".data.reverse ++ t⟩ := by
  simp [htmlStep, dataState, isLowerAlpha, isAlphanumeric, HtmlParser.emitStartTag, flowTag,
    HtmlParser.stop, HtmlParser.emitChar]

theorem run_row_eta (st : List (List Char)) (t : List Char) :
    "km • ETA ".data.foldl htmlStep ⟨.data, st, t⟩ =
      ⟨.data, st, "km • ETA ".data.reverse ++ t⟩ :=
  run_plain _ (by decide) st t

theorem run_row_close (st : List (List Char)) (t : List Char) :
    "min</div></div>".data.foldl htmlStep ⟨.data, "div".data :: "div".data :: st, t⟩ =
      ⟨.data, st, "min".data.reverse ++ t⟩ := by
  simp [htmlStep, dataState, isLowerAlpha, isAlphanumeric, HtmlParser.emitEndTag, flowTag,
    HtmlParser.stop, HtmlParser.emitChar]

/-- The text a match row displays when the four interpolated texts are free of
markup. -/
theorem parsedText_matchRow (m : MatchJson)
    (h1 : PlainText m.driver__user__username.toStr) (h2 : PlainText m.status.toStr)
    (h3 : PlainText m.distance_to_pickup_km.toStr) (h4 : PlainText m.eta_to_pickup_min.toStr) :
    parsedText (matchRow m).innerHTML =
      some (m.driver__user__username.toStr ++ " — " ++ m.status.toStr ++ " Dist: "
        ++ m.distance_to_pickup_km.toStr ++ "km • ETA " ++ m.eta_to_pickup_min.toStr
        ++ "min") := by
  unfold parsedText matchRow HtmlParser.start
  simp only [String.data_append, List.foldl_append]
  rw [run_row_open, run_plainText _ h1, run_row_name_end, run_plainText _ h2,
    run_row_detail_open, run_plainText _ h3, run_row_eta, run_plainText _ h4, run_row_close]
  simp only [Option.some.injEq]
  apply String.ext
  simp [String.data_append]

theorem run_banner_open (st : List (List Char)) (t : List Char) :
    "<div class=\"alert alert-info\">Matched to <strong>".data.foldl htmlStep ⟨.data, st, t⟩ =
      ⟨.data, "strong".data :: "div".data :: st, "Matched to ".data.reverse ++ t⟩ := by
  simp [htmlStep, dataState, isLowerAlpha, isAlphanumeric, HtmlParser.emitStartTag, flowTag,
    HtmlParser.stop, HtmlParser.emitChar]

theorem run_banner_name_end (st : List (List Char)) (t : List Char) :
    "</strong> — Ride #".data.foldl htmlStep ⟨.data, "strong".data :: st, t⟩ =
      ⟨.data, st, " — Ride #".data.reverse ++ t⟩ := by
  simp [htmlStep, dataState, isLowerAlpha, isAlphanumeric, HtmlParser.emitEndTag, flowTag,
    HtmlParser.stop, HtmlParser.emitChar]

theorem run_banner_status (st : List (List Char)) (t : List Char) :
    " • Status: ".data.foldl htmlStep ⟨.data, st, t⟩ =
      ⟨.data, st, " • Status: ".data.reverse ++ t⟩ :=
  run_plain _ (by decide) st t

theorem run_banner_close (st : List (List Char)) (t : List Char) :
    "</div>".data.foldl htmlStep ⟨.data, "div".data :: st, t⟩ = ⟨.data, st, t⟩ := by
  simp [htmlStep, dataState, isLowerAlpha, isAlphanumeric, HtmlParser.emitEndTag, flowTag,
    HtmlParser.stop, HtmlParser.emitChar]

/-- The text the ride banner displays when the three interpolated texts are free of
markup. -/
theorem parsedText_rideBanner (r : RideJson)
    (h1 : PlainText r.driver.toStr) (h2 : PlainText r.id.toStr)
    (h3 : PlainText r.status.toStr) :
    parsedText (rideBanner r) =
      some ("Matched to " ++ r.driver.toStr ++ " — Ride #" ++ r.id.toStr ++ " • Status: "
        ++ r.status.toStr) := by
  unfold parsedText rideBanner HtmlParser.start
  simp only [String.data_append, List.foldl_append]
  rw [run_banner_open, run_plainText _ h1, run_banner_name_end, run_plainText _ h2,
    run_banner_status, run_plainText _ h3, run_banner_close]
  simp only [Option.some.injEq]
  apply String.ext
  simp [String.data_append]

theorem shows_of_parsedText {markup text piece : String} (h : parsedText markup = some text)
    (hi : piece.data <:+: text.data) : shows markup piece := by
  unfold shows
  rw [h]
  exact hi

theorem matchRow_shows (m : MatchJson)
    (h1 : PlainText m.driver__user__username.toStr) (h2 : PlainText m.status.toStr)
    (h3 : PlainText m.distance_to_pickup_km.toStr) (h4 : PlainText m.eta_to_pickup_min.toStr) :
    shows (matchRow m).innerHTML m.driver__user__username.toStr ∧
      shows (matchRow m).innerHTML m.status.toStr ∧
      shows (matchRow m).innerHTML m.distance_to_pickup_km.toStr ∧
      shows (matchRow m).innerHTML m.eta_to_pickup_min.toStr := by
  have h := parsedText_matchRow m h1 h2 h3 h4
  refine ⟨shows_of_parsedText h ?_, shows_of_parsedText h ?_, shows_of_parsedText h ?_,
    shows_of_parsedText h ?_⟩
  · exact ⟨[], (" — " ++ m.status.toStr ++ " Dist: " ++ m.distance_to_pickup_km.toStr
      ++ "km • ETA " ++ m.eta_to_pickup_min.toStr ++ "min").data,
      by simp only [String.data_append, List.append_assoc, List.nil_append]⟩
  · exact ⟨(m.driver__user__username.toStr ++ " — ").data,
      (" Dist: " ++ m.distance_to_pickup_km.toStr ++ "km • ETA "
        ++ m.eta_to_pickup_min.toStr ++ "min").data,
      by simp only [String.data_append, List.append_assoc]⟩
  · exact ⟨(m.driver__user__username.toStr ++ " — " ++ m.status.toStr ++ " Dist: ").data,
      ("km • ETA " ++ m.eta_to_pickup_min.toStr ++ "min").data,
      by simp only [String.data_append, List.append_assoc]⟩
  · exact ⟨(m.driver__user__username.toStr ++ " — " ++ m.status.toStr ++ " Dist: "
        ++ m.distance_to_pickup_km.toStr ++ "km • ETA ").data, "min".data,
      by simp only [String.data_append, List.append_assoc]⟩

theorem rideBanner_shows (r : RideJson)
    (h1 : PlainText r.driver.toStr) (h2 : PlainText r.id.toStr)
    (h3 : PlainText r.status.toStr) :
    shows (rideBanner r) r.driver.toStr ∧ shows (rideBanner r) r.id.toStr ∧
      shows (rideBanner r) r.status.toStr := by
  have h := parsedText_rideBanner r h1 h2 h3
  refine ⟨shows_of_parsedText h ?_, shows_of_parsedText h ?_, shows_of_parsedText h ?_⟩
  · exact ⟨"Matched to ".data,
      (" — Ride #" ++ r.id.toStr ++ " • Status: " ++ r.status.toStr).data,
      by simp only [String.data_append, List.append_assoc]⟩
  · exact ⟨("Matched to " ++ r.driver.toStr ++ " — Ride #").data,
      (" • Status: " ++ r.status.toStr).data,
      by simp only [String.data_append, List.append_assoc]⟩
  · exact ⟨("Matched to " ++ r.driver.toStr ++ " — Ride #" ++ r.id.toStr
        ++ " • Status: ").data, [],
      by simp only [String.data_append, List.append_assoc, List.append_nil]⟩

theorem digitChar_plain : ∀ d : Nat, plainChar (Nat.digitChar d) = true
  | 0 => by decide
  | 1 => by decide
  | 2 => by decide
  | 3 => by decide
  | 4 => by decide
  | 5 => by decide
  | 6 => by decide
  | 7 => by decide
  | 8 => by decide
  | 9 => by decide
  | 10 => by decide
  | 11 => by decide
  | 12 => by decide
  | 13 => by decide
  | 14 => by decide
  | 15 => by decide
  | n + 16 => by
    have h : Nat.digitChar (n + 16) = '*' := by simp [Nat.digitChar]
    rw [h]
    decide

theorem toDigitsCore_plain :
    ∀ (fuel n : Nat) (ds : List Char), ds.all plainChar = true →
      (Nat.toDigitsCore 10 fuel n ds).all plainChar = true
  | 0, _, ds, h => by simpa [Nat.toDigitsCore] using h
  | fuel + 1, n, ds, h => by
    simp only [Nat.toDigitsCore]
    split
    · simp only [List.all_cons, digitChar_plain, h, Bool.and_self]
    · apply toDigitsCore_plain fuel
      simp only [List.all_cons, digitChar_plain, h, Bool.and_self]

theorem toDigits_plain (n : Nat) : (Nat.toDigits 10 n).all plainChar = true :=
  toDigitsCore_plain _ _ [] rfl

theorem all_take_of_all {l : List Char} (h : l.all plainChar = true) (k : Nat) :
    (l.take k).all plainChar = true := by
  rw [List.all_eq_true] at h ⊢
  exact fun c hc => h c (List.mem_of_mem_take hc)

theorem all_drop_of_all {l : List Char} (h : l.all plainChar = true) (k : Nat) :
    (l.drop k).all plainChar = true := by
  rw [List.all_eq_true] at h ⊢
  exact fun c hc => h c (List.mem_of_mem_drop hc)

theorem all_replicate_zero (k : Nat) : (List.replicate k '0').all plainChar = true := by
  rw [List.all_eq_true]
  intro c hc
  rw [(List.mem_replicate.mp hc).2]
  decide

theorem finiteChars_plain (s : Nat) (n : Int) : (finiteChars s n).all plainChar = true := by
  have hd := toDigits_plain s
  have he := toDigits_plain (n - 1).natAbs
  have htake := all_take_of_all hd
  have hdrop := all_drop_of_all hd
  have h1 : plainChar '.' = true := by decide
  have h2 : plainChar 'e' = true := by decide
  have h3 : plainChar '-' = true := by decide
  have h4 : plainChar '+' = true := by decide
  have h5 : plainChar '0' = true := by decide
  unfold finiteChars
  simp only
  split_ifs <;>
    simp only [List.all_append, List.all_cons, hd, he, htake, hdrop, all_replicate_zero,
      h1, h2, h3, h4, h5, Bool.and_self]

/-- The text of a Number is free of markup. -/
theorem numberToString_plain (x : JSNumber) : PlainText (numberToString x) := by
  unfold PlainText numberToString
  cases x with
  | nan => decide
  | infinity negative => cases negative <;> decide
  | zero => decide
  | finite negative s n =>
    cases negative
    · exact finiteChars_plain s n
    · simp only [numberChars, List.all_cons, finiteChars_plain, Bool.and_true]
      decide

/-- The text of a value other than a string is free of markup. -/
theorem toStr_plain (v : JSPrim) (h : ∀ s, v = JSPrim.str s → PlainText s) :
    PlainText v.toStr := by
  cases v with
  | undefined => decide
  | null => decide
  | bool b => cases b <;> decide
  | num x => exact numberToString_plain x
  | str s => exact h s rfl

/-- C4, as stated, fails: a tick answered with HTTP status 500, a non-success status,
and the JSON body `{"status": "error"}` replaces the status text "searching" by
"error" and empties the match list. -/
theorem error_response_is_rendered :
    (FetchOutcome.response 500 (some errorBody)).ok = false ∧
      (pollRequest (some (.num (.finite false 7 1))) (answering 500 errorBody)
          { panel := searchingPanel, console := [] }).state.panel =
        { rrStatus := some "error", matchesList := some [], rideInfo := some "" } ∧
      (pollRequest (some (.num (.finite false 7 1))) (answering 500 errorBody)
          { panel := searchingPanel, console := [] }).state.panel ≠ searchingPanel := by
  decide

/-- C4, amended: for every poll tick (one `pollRequest` call with `REQUEST_ID`
defined) in which `fetch` rejects or the body of the response is not valid JSON,
whatever the HTTP status, the status text, the match list and the ride banner are
left exactly as they were, and the call completes normally, the error having only
been logged to the console. -/
theorem failed_tick_keeps_panel (requestId : JSPrim) (fetch : String → FetchOutcome)
    (w : PollWorld) (hid : requestId ≠ JSPrim.undefined)
    (hfail : (∃ reason, fetch (pollUrl requestId) = .rejected reason) ∨
      ∃ httpStatus, fetch (pollUrl requestId) = .response httpStatus none) :
    ∃ e, pollRequest (some requestId) fetch w =
      .normal { panel := w.panel, console := w.console ++ [e] } := by
  rw [pollRequest_defined requestId hid]
  rcases hfail with ⟨reason, h⟩ | ⟨httpStatus, h⟩
  · exact ⟨reason, by rw [h]; rfl⟩
  · exact ⟨JSError.syntaxError, by rw [h]; rfl⟩

theorem failed_tick_keeps_panel_witness :
    ∃ e, pollRequest (some (.num (.finite false 7 1)))
        (fun _ => FetchOutcome.response 502 none) { panel := searchingPanel, console := [] } =
      .normal { panel := searchingPanel, console := [] ++ [e] } :=
  failed_tick_keeps_panel (.num (.finite false 7 1)) (fun _ => FetchOutcome.response 502 none)
    { panel := searchingPanel, console := [] } (by decide) (Or.inr ⟨502, rfl⟩)

/-- C5, as stated, fails: rendering the matched result, with its ride banner, and
then a result without a ride leaves a panel that differs from the one left by
rendering a result without a ride twice: the banner of the first result survives. -/
theorem ride_banner_survives :
    (render cancelledBody (render matchedBody searchingPanel).state).state ≠
        (render cancelledBody (render searchingBody searchingPanel).state).state ∧
      (render cancelledBody (render matchedBody searchingPanel).state).state.rideInfo =
        some (rideBanner ⟨.num (.finite false 42 2), .str "bob", .str "accepted"⟩) := by
  decide

/-- C5, amended: for all parsed poll results `a`, `a2` and `b` and every prior panel,
the status text and the match list after rendering `a` and then `b` are the same as
after rendering `a2` and then `b`, and so is the ride banner when `b` has a ride. -/
theorem render_replaces_previous (a a2 b : PollJson) (d : StatusPanel) :
    (render b (render a d).state).state.rrStatus =
        (render b (render a2 d).state).state.rrStatus ∧
      (render b (render a d).state).state.matchesList =
        (render b (render a2 d).state).state.matchesList ∧
      (b.ride ≠ none →
        (render b (render a d).state).state.rideInfo =
          (render b (render a2 d).state).state.rideInfo) := by
  obtain ⟨st, ml, ri⟩ := d
  simp only [render_state]
  refine ⟨?_, ?_, ?_⟩
  · cases st <;> simp
  · cases st <;> cases ml <;> simp
  · intro hb
    cases hr : b.ride with
    | none => exact absurd hr hb
    | some r =>
      cases st <;> cases ml <;> cases ri <;> cases a.ride <;> cases a2.ride <;> simp

theorem render_replaces_previous_witness :
    (render matchedBody (render searchingBody searchingPanel).state).state.rideInfo =
      (render matchedBody (render cancelledBody searchingPanel).state).state.rideInfo :=
  (render_replaces_previous searchingBody cancelledBody matchedBody searchingPanel).2.2
    (by decide)

set_option maxRecDepth 100000 in
/-- C6, as stated, fails: for the parsed result whose one match has the driver
name `&quot;alice&quot;`, the tick builds one row, the markup given to the row is
parsed, its text reads `"alice" — pending Dist: 2.3km • ETA 5min`, and the row does
not show the driver name of the match. -/
theorem quoted_name_not_shown :
    (pollRequest (some (.num (.finite false 7 1))) (answering 200 quotedMatchBody)
        { panel := emptyPanel, console := [] }).state.panel.matchesList =
      some [{ className := "list-group-item"
              innerHTML := "<div><strong>&quot;alice&quot;</strong> — pending <div class=\"small text-muted\">Dist: 2.3km • ETA 5min</div></div>" }] ∧
    parsedText "<div><strong>&quot;alice&quot;</strong> — pending <div class=\"small text-muted\">Dist: 2.3km • ETA 5min</div></div>" =
      some "\"alice\" — pending Dist: 2.3km • ETA 5min" ∧
    ¬ shows "<div><strong>&quot;alice&quot;</strong> — pending <div class=\"small text-muted\">Dist: 2.3km • ETA 5min</div></div>"
        "&quot;alice&quot;" := by
  decide

/-- C6, amended: for every poll result `j` that a tick parses, with status the string
`text`, on a page that has the `#rr-status` and `#matches-list` anchors, after
`pollRequest` the status text equals `text` and the match list holds exactly one row
per element of `j.matches`, in the same order, none when `matches` is empty or
missing; and the row of a match whose `driver__user__username`, `status`,
`distance_to_pickup_km` and `eta_to_pickup_min`, converted to text, have no `<`, no
`&`, no NUL and no carriage return shows these four texts: its text is the name, a
dash, the status, the distance after "Dist: " and the ETA after "ETA ". -/
theorem tick_renders_status_and_matches (requestId : JSPrim) (fetch : String → FetchOutcome)
    (httpStatus : Nat) (j : PollJson) (w : PollWorld) (text : String)
    (hid : requestId ≠ JSPrim.undefined)
    (hfetch : fetch (pollUrl requestId) = .response httpStatus (some j))
    (hstatus : j.status = .str text)
    (hs : w.panel.rrStatus ≠ none) (hl : w.panel.matchesList ≠ none) :
    (pollRequest (some requestId) fetch w).state.panel.rrStatus = some text ∧
      (pollRequest (some requestId) fetch w).state.panel.matchesList =
        some ((j.«matches».getD []).map matchRow) ∧
      ∀ m ∈ j.«matches».getD [],
        PlainText m.driver__user__username.toStr → PlainText m.status.toStr →
        PlainText m.distance_to_pickup_km.toStr → PlainText m.eta_to_pickup_min.toStr →
        parsedText (matchRow m).innerHTML =
            some (m.driver__user__username.toStr ++ " — " ++ m.status.toStr ++ " Dist: "
              ++ m.distance_to_pickup_km.toStr ++ "km • ETA " ++ m.eta_to_pickup_min.toStr
              ++ "min") ∧
          shows (matchRow m).innerHTML m.driver__user__username.toStr ∧
          shows (matchRow m).innerHTML m.status.toStr ∧
          shows (matchRow m).innerHTML m.distance_to_pickup_km.toStr ∧
          shows (matchRow m).innerHTML m.eta_to_pickup_min.toStr := by
  rw [pollRequest_success requestId hid fetch httpStatus j w hfetch, render_state]
  obtain ⟨⟨st, ml, ri⟩, c⟩ := w
  cases st with
  | none => exact absurd rfl hs
  | some t =>
    cases ml with
    | none => exact absurd rfl hl
    | some children =>
      refine ⟨by simp [hstatus, textContentOf, JSPrim.toStr], by simp [rowsOf], ?_⟩
      intro m _ h1 h2 h3 h4
      exact ⟨parsedText_matchRow m h1 h2 h3 h4, matchRow_shows m h1 h2 h3 h4⟩

set_option maxRecDepth 100000 in
theorem tick_renders_status_and_matches_witness :
    (pollRequest (some (.num (.finite false 7 1))) (answering 200 searchingBody)
        { panel := emptyPanel, console := [] }).state.panel.rrStatus = some "searching" ∧
      (pollRequest (some (.num (.finite false 7 1))) (answering 200 searchingBody)
        { panel := emptyPanel, console := [] }).state.panel.matchesList =
        some [{ className := "list-group-item"
                innerHTML := "<div><strong>alice</strong> — pending <div class=\"small text-muted\">Dist: 2.3km • ETA 5min</div></div>" }] ∧
      parsedText "<div><strong>alice</strong> — pending <div class=\"small text-muted\">Dist: 2.3km • ETA 5min</div></div>" =
        some "alice — pending Dist: 2.3km • ETA 5min" ∧
      shows "<div><strong>alice</strong> — pending <div class=\"small text-muted\">Dist: 2.3km • ETA 5min</div></div>" "alice" ∧
      shows "<div><strong>alice</strong> — pending <div class=\"small text-muted\">Dist: 2.3km • ETA 5min</div></div>" "pending" ∧
      shows "<div><strong>alice</strong> — pending <div class=\"small text-muted\">Dist: 2.3km • ETA 5min</div></div>" "2.3" ∧
      shows "<div><strong>alice</strong> — pending <div class=\"small text-muted\">Dist: 2.3km • ETA 5min</div></div>" "5" :=
  have h := tick_renders_status_and_matches (.num (.finite false 7 1))
    (answering 200 searchingBody) 200 searchingBody { panel := emptyPanel, console := [] }
    "searching" (by decide) rfl rfl (by decide) (by decide)
  ⟨h.1, h.2.1,
    h.2.2 ⟨.str "alice", .str "pending", .num (.finite false 23 1), .num (.finite false 5 1)⟩
      (by decide) (by decide) (by decide) (by decide) (by decide)⟩

set_option maxRecDepth 100000 in
/-- C7, as stated, fails: for the parsed result whose ride has the driver name
`&quot;bob&quot;`, the tick assigns the banner markup, the markup is parsed, the
banner reads `Matched to "bob" — Ride #42 • Status: accepted`, and it does not show
the driver name of the ride. -/
theorem quoted_driver_not_shown :
    (pollRequest (some (.num (.finite false 7 1))) (answering 200 quotedRideBody)
        { panel := searchingPanel, console := [] }).state.panel.rideInfo =
      some "<div class=\"alert alert-info\">Matched to <strong>&quot;bob&quot;</strong> — Ride #42 • Status: accepted</div>" ∧
    parsedText "<div class=\"alert alert-info\">Matched to <strong>&quot;bob&quot;</strong> — Ride #42 • Status: accepted</div>" =
      some "Matched to \"bob\" — Ride #42 • Status: accepted" ∧
    ¬ shows "<div class=\"alert alert-info\">Matched to <strong>&quot;bob&quot;</strong> — Ride #42 • Status: accepted</div>"
        "&quot;bob&quot;" := by
  decide

/-- C7, amended: for every poll result `j` that a tick parses and whose ride `r` is
present, on a page that has the three anchors, after `pollRequest` the ride banner
holds the banner markup of `r`, and when `matches` is empty or missing the match
list is empty; and when the driver name, the id and the status of `r`, converted to
text, have no `<`, no `&`, no NUL and no carriage return, the banner shows these
three texts: it reads "Matched to", the driver name, "Ride #" with the id, and
"Status:" with the status. -/
theorem tick_renders_ride_banner (requestId : JSPrim) (fetch : String → FetchOutcome)
    (httpStatus : Nat) (j : PollJson) (w : PollWorld) (r : RideJson)
    (hid : requestId ≠ JSPrim.undefined)
    (hfetch : fetch (pollUrl requestId) = .response httpStatus (some j))
    (hride : j.ride = some r)
    (hs : w.panel.rrStatus ≠ none) (hl : w.panel.matchesList ≠ none)
    (hr : w.panel.rideInfo ≠ none) :
    (pollRequest (some requestId) fetch w).state.panel.rideInfo = some (rideBanner r) ∧
      (j.«matches».getD [] = [] →
        (pollRequest (some requestId) fetch w).state.panel.matchesList = some []) ∧
      (PlainText r.driver.toStr → PlainText r.id.toStr → PlainText r.status.toStr →
        parsedText (rideBanner r) =
            some ("Matched to " ++ r.driver.toStr ++ " — Ride #" ++ r.id.toStr
              ++ " • Status: " ++ r.status.toStr) ∧
          shows (rideBanner r) r.driver.toStr ∧
          shows (rideBanner r) r.id.toStr ∧
          shows (rideBanner r) r.status.toStr) := by
  rw [pollRequest_success requestId hid fetch httpStatus j w hfetch, render_state]
  obtain ⟨⟨st, ml, ri⟩, c⟩ := w
  cases st with
  | none => exact absurd rfl hs
  | some t =>
    cases ml with
    | none => exact absurd rfl hl
    | some children =>
      cases ri with
      | none => exact absurd rfl hr
      | some b =>
        refine ⟨by simp [hride], ?_, ?_⟩
        · intro hm
          simp [rowsOf, hm]
        · intro h1 h2 h3
          exact ⟨parsedText_rideBanner r h1 h2 h3, rideBanner_shows r h1 h2 h3⟩

set_option maxRecDepth 100000 in
theorem tick_renders_ride_banner_witness :
    (pollRequest (some (.num (.finite false 7 1))) (answering 200 matchedBody)
        { panel := searchingPanel, console := [] }).state.panel.rideInfo =
        some "<div class=\"alert alert-info\">Matched to <strong>bob</strong> — Ride #42 • Status: accepted</div>" ∧
      (pollRequest (some (.num (.finite false 7 1))) (answering 200 matchedBody)
        { panel := searchingPanel, console := [] }).state.panel.matchesList = some [] ∧
      parsedText "<div class=\"alert alert-info\">Matched to <strong>bob</strong> — Ride #42 • Status: accepted</div>" =
        some "Matched to bob — Ride #42 • Status: accepted" ∧
      shows "<div class=\"alert alert-info\">Matched to <strong>bob</strong> — Ride #42 • Status: accepted</div>" "bob" ∧
      shows "<div class=\"alert alert-info\">Matched to <strong>bob</strong> — Ride #42 • Status: accepted</div>" "42" ∧
      shows "<div class=\"alert alert-info\">Matched to <strong>bob</strong> — Ride #42 • Status: accepted</div>" "accepted" :=
  have h := tick_renders_ride_banner (.num (.finite false 7 1))
    (answering 200 matchedBody) 200 matchedBody { panel := searchingPanel, console := [] }
    ⟨.num (.finite false 42 2), .str "bob", .str "accepted"⟩
    (by decide) rfl rfl (by decide) (by decide) (by decide)
  ⟨h.1, h.2.1 rfl, h.2.2 (by decide) (by decide) (by decide)⟩

/-- C8: for every poll result `r` that a tick parses and every prior state of the
page, a second tick with the same result leaves the status text, the match list and
the ride banner exactly as the first tick left them; on a page that has the
`#rr-status` and `#matches-list` anchors the number of match rows after the second
tick is the length of `r.matches`. -/
theorem tick_twice_same (requestId : JSPrim) (fetch : String → FetchOutcome)
    (httpStatus : Nat) (r : PollJson) (w : PollWorld)
    (hid : requestId ≠ JSPrim.undefined)
    (hfetch : fetch (pollUrl requestId) = .response httpStatus (some r)) :
    (pollRequest (some requestId) fetch (pollRequest (some requestId) fetch w).state).state.panel =
        (pollRequest (some requestId) fetch w).state.panel ∧
      (w.panel.rrStatus ≠ none → w.panel.matchesList ≠ none →
        Option.map List.length
            (pollRequest (some requestId) fetch
              (pollRequest (some requestId) fetch w).state).state.panel.matchesList =
          some (r.«matches».getD []).length) := by
  rw [pollRequest_success requestId hid fetch httpStatus r _ hfetch,
    pollRequest_success requestId hid fetch httpStatus r w hfetch]
  simp only [render_state]
  obtain ⟨⟨st, ml, ri⟩, c⟩ := w
  constructor
  · cases st <;> cases ml <;> cases ri <;> cases r.ride <;> simp
  · intro hs hl
    cases st with
    | none => exact absurd rfl hs
    | some t =>
      cases ml with
      | none => exact absurd rfl hl
      | some children => simp [rowsOf]

theorem tick_twice_same_witness :
    (pollRequest (some (.num (.finite false 7 1))) (answering 200 searchingBody)
        (pollRequest (some (.num (.finite false 7 1))) (answering 200 searchingBody)
          { panel := emptyPanel, console := [] }).state).state.panel =
      (pollRequest (some (.num (.finite false 7 1))) (answering 200 searchingBody)
        { panel := emptyPanel, console := [] }).state.panel ∧
    Option.map List.length
        (pollRequest (some (.num (.finite false 7 1))) (answering 200 searchingBody)
          (pollRequest (some (.num (.finite false 7 1))) (answering 200 searchingBody)
            { panel := emptyPanel, console := [] }).state).state.panel.matchesList =
      some 1 :=
  have h := tick_twice_same (.num (.finite false 7 1)) (answering 200 searchingBody) 200
    searchingBody { panel := emptyPanel, console := [] } (by decide) rfl
  ⟨h.1, h.2 (by decide) (by decide)⟩

end UberClone
